import Mathlib

/-
  Verification of the pyms/pyamlvus schema pipeline.

  Shallow embedding of the validation-and-build core:
    - src/pyamlvus/types/compat.py        (version parsing and comparison)
    - src/pyamlvus/types/constants.py     (index-type and metric tables)
    - src/pyamlvus/types/mappings.py      (type registry)
    - src/pyamlvus/validators/field.py    (FieldValidator)
    - src/pyamlvus/validators/index.py    (IndexValidator)
    - src/pyamlvus/builders/index.py      (IndexBuilder)
    - src/pyamlvus/builders/field.py      (FieldBuilder)
    - src/pyamlvus/builders/schema.py and src/pyms/builders/schema.py
      (SchemaBuilder; the two generations share the logic embedded here)
    - src/pyms/validators/schema.py       (resolve_autoindex_flag)
    - src/pyamlvus/__init__.py            (validate_schema entry point)

  Python dynamic values are embedded as the inductive PyVal; dictionaries are
  association lists in insertion order (Python 3.7+ dicts preserve insertion
  order, and assignment to an existing key keeps its position).  Exceptions are
  embedded as Except String carrying the exact message text the source builds.
  Python float literals that the code stores (1.2, 0.75) are embedded as exact
  rationals; the code never performs float arithmetic on them.
-/

namespace Pyms

/-- An untyped Python/YAML value as the pipeline sees it. -/
inductive PyVal where
  | none
  | bool (b : Bool)
  | int (n : Int)
  | float (q : Rat)
  | str (s : String)
  | list (xs : List PyVal)
  | dict (kvs : List (String × PyVal))

/-- Python truthiness (`if value:`). -/
def PyVal.truthy : PyVal → Bool
  | .none => false
  | .bool b => b
  | .int n => n != 0
  | .float q => q != 0
  | .str s => !s.isEmpty
  | .list xs => !xs.isEmpty
  | .dict kvs => !kvs.isEmpty

/-- Python `type(value).__name__`. -/
def PyVal.typeName : PyVal → String
  | .none => "NoneType"
  | .bool _ => "bool"
  | .int _ => "int"
  | .float _ => "float"
  | .str _ => "str"
  | .list _ => "list"
  | .dict _ => "dict"

/-- Decimal rendering of a rational that is an exact decimal fraction, as
Python prints the corresponding float literal (`str(1.2) = "1.2"`,
`str(3.0) = "3.0"`).  Rationals whose denominator divides no power of ten
cannot arise from the decimal float literals the source stores. -/
def ratPyStr (q : Rat) : String :=
  match (List.range 21).find? (fun k => q.den ∣ 10 ^ k) with
  | Option.none => toString q
  | Option.some k =>
    let scaled : Nat := q.num.natAbs * 10 ^ k / q.den
    let intPart : Nat := scaled / 10 ^ k
    let frac : Nat := scaled % 10 ^ k
    let sign : String := if q.num < 0 then "-" else ""
    if k = 0 then sign ++ toString intPart ++ ".0"
    else
      let fracDigits := toString frac
      let padded := String.mk (List.replicate (k - fracDigits.length) '0') ++ fracDigits
      sign ++ toString intPart ++ "." ++ padded

mutual

/-- Python `str(value)` (scalars; containers render via repr of elements). -/
def pyStr : PyVal → String
  | .none => "None"
  | .bool b => if b then "True" else "False"
  | .int n => toString n
  | .float q => ratPyStr q
  | .str s => s
  | .list xs => "[" ++ String.intercalate ", " (pyReprList xs) ++ "]"
  | .dict kvs => "\x7b" ++ String.intercalate ", " (pyReprKVs kvs) ++ "\x7d"

/-- Python `repr(value)`. -/
def pyRepr : PyVal → String
  | .str s => "'" ++ s ++ "'"
  | .list xs => "[" ++ String.intercalate ", " (pyReprList xs) ++ "]"
  | .dict kvs => "\x7b" ++ String.intercalate ", " (pyReprKVs kvs) ++ "\x7d"
  | v => pyStr v

def pyReprList : List PyVal → List String
  | [] => []
  | v :: vs => pyRepr v :: pyReprList vs

def pyReprKVs : List (String × PyVal) → List String
  | [] => []
  | (k, v) :: kvs => (pyRepr (.str k) ++ ": " ++ pyRepr v) :: pyReprKVs kvs

end

/-- A Python dict with string keys, in insertion order. -/
abbrev PyDict := List (String × PyVal)

/-- Python `d.get(k)`: the first binding of `k`, else `None`.  A stored `None`
and a missing key are indistinguishable to `.get`, as in the source. -/
def dget (d : PyDict) (k : String) : PyVal :=
  match d.lookup k with
  | Option.some v => v
  | Option.none => .none

/-- Python `k in d`. -/
def dmem (d : PyDict) (k : String) : Bool :=
  (d.lookup k).isSome

/-- Python `d[k] = v`: overwrite in place if the key exists (keeping its
position), else append. -/
def dset (d : PyDict) (k : String) (v : PyVal) : PyDict :=
  match d with
  | [] => [(k, v)]
  | (k', v') :: rest => if k' = k then (k, v) :: rest else (k', v') :: dset rest k v

/- ----------------------------------------------------------------------
   src/pyamlvus/types/compat.py : version parsing and comparison
   ---------------------------------------------------------------------- -/

/-- Split a character list at every '.', '+' or '-', keeping empty components,
as `re.split(r"[.+-]", version)` does. -/
def splitVersionComps : List Char → List Char → List (List Char)
  | [], acc => [acc.reverse]
  | c :: cs, acc =>
    if c = '.' ∨ c = '+' ∨ c = '-' then acc.reverse :: splitVersionComps cs []
    else splitVersionComps cs (c :: acc)

/-- Python `component.isdigit()`: non-empty and all digits. -/
def compIsDigit (cs : List Char) : Bool :=
  !cs.isEmpty && cs.all Char.isDigit

/-- Python `int(component)` on a digit string. -/
def digitsToNat (cs : List Char) : Nat :=
  cs.foldl (fun n c => 10 * n + (c.toNat - 48)) 0

/-- `_version_tuple`: the leading run of numeric components, stopping at the
first component that is not all digits. -/
def versionTuple (version : String) : List Nat :=
  ((splitVersionComps version.toList []).takeWhile compIsDigit).map digitsToNat

/-- Python `s.upper()` (ASCII), written over the character list so that it
evaluates inside the kernel. -/
def pyToUpper (s : String) : String := String.mk (s.toList.map Char.toUpper)

/-- `parse_version`: rejects non-strings and empty/whitespace strings
(`not version.strip()`), else `_version_tuple`. -/
def parseVersion (version : String) : Except String (List Nat) :=
  if version.toList.all Char.isWhitespace then
    .error "Version string must be a non-empty string"
  else .ok (versionTuple version)

/-- Python tuple `<` on integer tuples: lexicographic, a strict prefix is
smaller. -/
def tupleLt : List Nat → List Nat → Bool
  | [], [] => false
  | [], _ :: _ => true
  | _ :: _, [] => false
  | a :: as, b :: bs => if a < b then true else if b < a then false else tupleLt as bs

/-- `version_matches`, with the installed version injected as a parameter. -/
def versionMatches (installed : List Nat) (version : String) : Except String Bool :=
  (parseVersion version).map (fun t => installed = t)

/-- `version_at_least`: `PYMILVUS_VERSION_INFO >= parse_version(min_version)`. -/
def versionAtLeast (installed : List Nat) (minVersion : String) : Except String Bool :=
  (parseVersion minVersion).map (fun t => !tupleLt installed t)

/-- `version_at_most`: `PYMILVUS_VERSION_INFO <= parse_version(max_version)`. -/
def versionAtMost (installed : List Nat) (maxVersion : String) : Except String Bool :=
  (parseVersion maxVersion).map (fun t => !tupleLt t installed)

/- ----------------------------------------------------------------------
   src/pyamlvus/types/compat.py, constants.py, mappings.py :
   version-gated feature flags and static tables
   ---------------------------------------------------------------------- -/

/-- The version-gated feature flags of `OPTIONAL_TYPE_SUPPORT` /
`OPTIONAL_INDEX_SUPPORT`, plus the installed version string used in error
messages; injected as a parameter so any installed engine version can be
simulated. -/
structure Compat where
  float16 : Bool
  bfloat16 : Bool
  int8vec : Bool
  gpuCagra : Bool
  gpuBrute : Bool
  versionStr : String

/-- The flags as `compat.py` computes them from the installed version:
every optional feature has minimum version (2, 6, 0). -/
def Compat.ofVersion (installed : List Nat) (versionStr : String) : Compat :=
  let s := !tupleLt installed [2, 6, 0]
  ⟨s, s, s, s, s, versionStr⟩

/-- `OPTIONAL_TYPE_SUPPORT.get(field_type)` (`none` = key absent). -/
def optionalTypeSupport (c : Compat) : String → Option Bool
  | "float16_vector" => Option.some c.float16
  | "bfloat16_vector" => Option.some c.bfloat16
  | "int8_vector" => Option.some c.int8vec
  | _ => Option.none

/-- `OPTIONAL_TYPE_REQUIREMENTS[field_type]`: the human-readable minimum. -/
def optionalTypeRequirement : String → Option String
  | "float16_vector" => Option.some "Requires pymilvus>=2.6.0"
  | "bfloat16_vector" => Option.some "Requires pymilvus>=2.6.0"
  | "int8_vector" => Option.some "Requires pymilvus>=2.6.0"
  | _ => Option.none

/-- `OPTIONAL_INDEX_SUPPORT.get(index_type, False)`. -/
def optionalIndexSupport (c : Compat) : String → Bool
  | "GPU_CAGRA" => c.gpuCagra
  | "GPU_BRUTE_FORCE" => c.gpuBrute
  | _ => false

/-- `OPTIONAL_INDEX_REQUIREMENTS.get(index_type)`. -/
def optionalIndexRequirement : String → Option String
  | "GPU_CAGRA" => Option.some "Requires pymilvus>=2.6.0"
  | "GPU_BRUTE_FORCE" => Option.some "Requires pymilvus>=2.6.0"
  | _ => Option.none

def FLOAT_METRICS : List String := ["L2", "IP", "COSINE"]

def BINARY_METRICS : List String := ["HAMMING", "JACCARD", "TANIMOTO"]

/-- `REQUIRED_PARAMS.get(index_type, set())`. -/
def requiredParams : String → List String
  | "IVF_FLAT" => ["nlist"]
  | "IVF_SQ8" => ["nlist"]
  | "IVF_PQ" => ["nlist"]
  | "HNSW" => ["M", "efConstruction"]
  | _ => []

/-- `_FLOAT_VECTOR_INDEXES = _BASE_VECTOR_INDEXES | _OPTIONAL_GPU_INDEXES`. -/
def floatVectorIndexes (c : Compat) : List String :=
  ["FLAT", "IVF_FLAT", "IVF_SQ8", "IVF_PQ", "IVF_RABITQ", "HNSW", "DISKANN",
   "AUTOINDEX", "GPU_IVF_FLAT", "GPU_IVF_PQ"]
  ++ (if c.gpuCagra then ["GPU_CAGRA"] else [])
  ++ (if c.gpuBrute then ["GPU_BRUTE_FORCE"] else [])

/-- `GPU_INDEX_TYPES = _BASE_GPU_INDEXES | _OPTIONAL_GPU_INDEXES`. -/
def gpuIndexTypes (c : Compat) : List String :=
  ["GPU_IVF_FLAT", "GPU_IVF_PQ"]
  ++ (if c.gpuCagra then ["GPU_CAGRA"] else [])
  ++ (if c.gpuBrute then ["GPU_BRUTE_FORCE"] else [])

/-- `VALID_INDEX_TYPES.get(field_type, set())`; the float16/bfloat16/int8
vector entries exist only when the corresponding optional type is
supported. -/
def validIndexTypes (c : Compat) : String → List String
  | "float_vector" => floatVectorIndexes c
  | "binary_vector" => ["BIN_FLAT", "BIN_IVF_FLAT", "MINHASH_LSH"]
  | "sparse_float_vector" => ["SPARSE_INVERTED_INDEX"]
  | "varchar" => ["INVERTED", "BITMAP", "TRIE"]
  | "int8" => ["INVERTED", "STL_SORT"]
  | "int16" => ["INVERTED", "STL_SORT"]
  | "int32" => ["INVERTED", "STL_SORT"]
  | "int64" => ["INVERTED", "STL_SORT"]
  | "float" => ["INVERTED"]
  | "double" => ["INVERTED"]
  | "bool" => ["BITMAP", "INVERTED"]
  | "array" => ["BITMAP", "INVERTED"]
  | "json" => ["INVERTED"]
  | "float16_vector" => if c.float16 then floatVectorIndexes c else []
  | "bfloat16_vector" => if c.bfloat16 then floatVectorIndexes c else []
  | "int8_vector" => if c.int8vec then ["HNSW"] else []
  | _ => []

/-- `RECOMMENDED_INDEX_TYPES.get(field_type)`. -/
def recommendedIndexType (c : Compat) : String → Option String
  | "varchar" => Option.some "INVERTED"
  | "bool" => Option.some "BITMAP"
  | "int8" => Option.some "INVERTED"
  | "int16" => Option.some "INVERTED"
  | "int32" => Option.some "INVERTED"
  | "int64" => Option.some "INVERTED"
  | "float" => Option.some "INVERTED"
  | "double" => Option.some "INVERTED"
  | "array" => Option.some "BITMAP"
  | "json" => Option.some "INVERTED"
  | "int8_vector" => if c.int8vec then Option.some "HNSW" else Option.none
  | _ => Option.none

/-- `TYPE_MAPPING`: yaml type name to engine `DataType` identifier (embedded
as the identifier's name); the float16/bfloat16/int8 vector entries are
version-gated (the engine attribute is assumed to exist when supported). -/
def typeMapping (c : Compat) : String → Option String
  | "int8" => Option.some "INT8"
  | "int16" => Option.some "INT16"
  | "int32" => Option.some "INT32"
  | "int64" => Option.some "INT64"
  | "bool" => Option.some "BOOL"
  | "float" => Option.some "FLOAT"
  | "double" => Option.some "DOUBLE"
  | "varchar" => Option.some "VARCHAR"
  | "json" => Option.some "JSON"
  | "array" => Option.some "ARRAY"
  | "float_vector" => Option.some "FLOAT_VECTOR"
  | "binary_vector" => Option.some "BINARY_VECTOR"
  | "sparse_float_vector" => Option.some "SPARSE_FLOAT_VECTOR"
  | "float16_vector" => if c.float16 then Option.some "FLOAT16_VECTOR" else Option.none
  | "bfloat16_vector" => if c.bfloat16 then Option.some "BFLOAT16_VECTOR" else Option.none
  | "int8_vector" => if c.int8vec then Option.some "INT8_VECTOR" else Option.none
  | _ => Option.none

/-- The keys of `TYPE_MAPPING`, in insertion order. -/
def typeMappingKeys (c : Compat) : List String :=
  ["int8", "int16", "int32", "int64", "bool", "float", "double", "varchar",
   "json", "array", "float_vector", "binary_vector", "sparse_float_vector"]
  ++ (if c.float16 then ["float16_vector"] else [])
  ++ (if c.bfloat16 then ["bfloat16_vector"] else [])
  ++ (if c.int8vec then ["int8_vector"] else [])

/- String sorting and Python list repr, for the error messages that format
`sorted(...)`. -/

/-- Code-point comparison of character lists (Python string `<`). -/
def charsLt : List Char → List Char → Bool
  | [], [] => false
  | [], _ :: _ => true
  | _ :: _, [] => false
  | a :: as, b :: bs =>
    if a.toNat < b.toNat then true
    else if b.toNat < a.toNat then false
    else charsLt as bs

def strLeB (a b : String) : Bool := a = b || charsLt a.toList b.toList

def insertSorted (x : String) : List String → List String
  | [] => [x]
  | y :: ys => if strLeB x y then x :: y :: ys else y :: insertSorted x ys

/-- Python `sorted` on a list of strings (ascending, stable). -/
def sortStrings (xs : List String) : List String := xs.foldr insertSorted []

/-- Python `str` of a list of strings, e.g. `['M', 'efConstruction']`. -/
def pyStrList (xs : List String) : String :=
  "[" ++ String.intercalate ", " (xs.map (fun s => "'" ++ s ++ "'")) ++ "]"

/- ----------------------------------------------------------------------
   src/pyamlvus/validators/field.py : FieldValidator
   ---------------------------------------------------------------------- -/

/-- A field definition.  `Option.none` is an absent key; names and types are
embedded as strings (the data model's universe for them).  A key present with
value null is `Option.some PyVal.none`. -/
structure FieldDef where
  name : Option String := Option.none
  type : Option String := Option.none
  max_length : Option PyVal := Option.none
  dim : Option PyVal := Option.none
  element_type : Option String := Option.none
  max_capacity : Option PyVal := Option.none
  is_primary : Option PyVal := Option.none
  auto_id : Option PyVal := Option.none
  nullable : Option PyVal := Option.none
  enable_match : Option PyVal := Option.none
  enable_analyzer : Option PyVal := Option.none
  analyzer_params : Option PyVal := Option.none
  multi_analyzer_params : Option PyVal := Option.none
  description : Option PyVal := Option.none

/-- Python `isinstance(v, int)` view of a value (`bool` is a subtype of
`int` in Python, so `True` counts as `1`). -/
def pyIntVal : PyVal → Option Int
  | .int n => Option.some n
  | .bool b => Option.some (if b then 1 else 0)
  | _ => Option.none

/-- `BaseValidator.validate_string_not_empty`. -/
def validateStringNotEmpty (value : String) (fieldName : String) : Except String Unit :=
  if value.isEmpty || value.toList.all Char.isWhitespace then
    .error ("Field '" ++ fieldName ++ "' cannot be empty")
  else .ok ()

/-- `BaseValidator.validate_positive_integer`. -/
def validatePositiveInteger (v : PyVal) (fieldName : String) : Except String Unit :=
  match pyIntVal v with
  | Option.some n =>
    if n ≤ 0 then
      .error ("Field '" ++ fieldName ++ "' must be a positive integer, got " ++ pyStr v)
    else .ok ()
  | Option.none =>
    .error ("Field '" ++ fieldName ++ "' must be a positive integer, got " ++ pyStr v)

/-- `VECTOR_DIM_RANGES` (only these three keys exist in the source). -/
def vectorDimRange : String → Option (Int × Int)
  | "float_vector" => Option.some (1, 32768)
  | "binary_vector" => Option.some (1, 32768 * 8)
  | "sparse_float_vector" => Option.some (1, 2 ^ 31 - 1)
  | _ => Option.none

/-- `validate_vector_dim`: bound check against `VECTOR_DIM_RANGES`.  Only ever
called with a key of the table and an integer dim (guarded by the caller). -/
def validateVectorDim (fieldName : String) (dim : PyVal) (vectorType : String) :
    Except String Unit :=
  match vectorDimRange vectorType with
  | Option.none => .error ("KeyError: '" ++ vectorType ++ "'")
  | Option.some (lo, hi) =>
    match pyIntVal dim with
    | Option.none => .error "TypeError: comparison not supported"
    | Option.some n =>
      if lo ≤ n ∧ n ≤ hi then .ok ()
      else
        .error ("Field '" ++ fieldName ++ "': " ++ vectorType ++ " dimension " ++
          pyStr dim ++ " must be between " ++ toString lo ++ "-" ++ toString hi)

/-- `validate_varchar_length`: 1-65535. -/
def validateVarcharLength (fieldName : String) (maxLength : PyVal) : Except String Unit :=
  match pyIntVal maxLength with
  | Option.none => .error "TypeError: comparison not supported"
  | Option.some n =>
    if 1 ≤ n ∧ n ≤ 65535 then .ok ()
    else
      .error ("VARCHAR field '" ++ fieldName ++ "' max_length " ++ pyStr maxLength ++
        " must be between 1-65535")

/-- `validate_array_params`: max_capacity 1-4096. -/
def validateArrayCapacity (fieldName : String) (maxCapacity : PyVal) : Except String Unit :=
  match pyIntVal maxCapacity with
  | Option.none => .error "TypeError: comparison not supported"
  | Option.some n =>
    if 1 ≤ n ∧ n ≤ 4096 then .ok ()
    else
      .error ("Array field '" ++ fieldName ++ "' max_capacity " ++ pyStr maxCapacity ++
        " must be between 1-4096")

/-- `FieldValidator._validate_field_name_format`. -/
def validateFieldNameFormat (name : String) : Except String Unit :=
  let stripped := name.toList.filter (fun c => c ≠ '_' ∧ c ≠ '-')
  if !(!stripped.isEmpty && stripped.all Char.isAlphanum) then
    .error ("Field name '" ++ name ++ "' contains invalid characters. " ++
      "Only alphanumeric characters, underscores, and hyphens are allowed.")
  else
    match name.toList with
    | '_' :: _ =>
      .error ("Field name '" ++ name ++ "' cannot start with underscore (reserved for " ++
        "system fields)")
    | _ => .ok ()

/-- `FieldValidator._validate_field_type` (raises the distinguishable
unsupported-type error). -/
def validateFieldType (c : Compat) (fieldType : String) (fieldName : String) :
    Except String Unit :=
  if (typeMapping c fieldType).isSome then .ok ()
  else
    .error ("Unsupported field type '" ++ fieldType ++ "' for field '" ++ fieldName ++
      "'. Supported types: " ++ pyStrList (sortStrings (typeMappingKeys c)))

/-- `FieldValidator._validate_varchar_params`. -/
def validateVarcharParams (f : FieldDef) (fieldName : String) : Except String Unit :=
  match f.max_length with
  | Option.none =>
    .error ("VARCHAR field '" ++ fieldName ++ "' missing required 'max_length' parameter")
  | Option.some ml => do
    validatePositiveInteger ml (fieldName ++ ".max_length")
    validateVarcharLength fieldName ml

/-- `FieldValidator._validate_vector_params`. -/
def validateVectorParams (f : FieldDef) (fieldType : String) (fieldName : String) :
    Except String Unit :=
  match f.dim with
  | Option.none =>
    .error ("Vector field '" ++ fieldName ++ "' missing required 'dim' parameter")
  | Option.some d => do
    validatePositiveInteger d (fieldName ++ ".dim")
    validateVectorDim fieldName d fieldType

/-- `FieldValidator._validate_array_params`. -/
def validateArrayParams (c : Compat) (f : FieldDef) (fieldName : String) :
    Except String Unit :=
  match f.element_type with
  | Option.none =>
    .error ("Array field '" ++ fieldName ++ "' missing required 'element_type' parameter")
  | Option.some elementType =>
    match f.max_capacity with
    | Option.none =>
      .error ("Array field '" ++ fieldName ++ "' missing required 'max_capacity' parameter")
    | Option.some mc =>
      if !(typeMapping c elementType).isSome then
        .error ("Unsupported array element type '" ++ elementType ++ "' for field '" ++
          fieldName ++ "'")
      else do
        validatePositiveInteger mc (fieldName ++ ".max_capacity")
        validateArrayCapacity fieldName mc

/-- `FieldValidator._validate_type_specific_params`: note that only
`float_vector` and `binary_vector` reach the vector-dim checks; the
float16/bfloat16/int8 vector types fall through with no check. -/
def validateTypeSpecificParams (c : Compat) (f : FieldDef) (fieldType : String)
    (fieldName : String) : Except String Unit :=
  if fieldType = "varchar" then validateVarcharParams f fieldName
  else if fieldType = "float_vector" ∨ fieldType = "binary_vector" then
    validateVectorParams f fieldType fieldName
  else if fieldType = "sparse_float_vector" then .ok ()
  else if fieldType = "array" then validateArrayParams c f fieldName
  else .ok ()

/-- `FieldValidator.validate`. -/
def fieldValidate (c : Compat) (item : FieldDef) : Except String Unit :=
  match item.name with
  | Option.none => .error "Field missing required 'name' attribute"
  | Option.some name =>
    match item.type with
    | Option.none => .error ("Field '" ++ name ++ "' missing required 'type' attribute")
    | Option.some fieldType => do
      validateStringNotEmpty name "name"
      validateFieldNameFormat name
      validateFieldType c fieldType name
      validateTypeSpecificParams c item fieldType name
      (match item.nullable with
       | Option.some (.bool _) => .ok ()
       | Option.none => .ok ()
       | Option.some _ => .error ("Field '" ++ name ++ "': 'nullable' must be a boolean value"))
      (match item.enable_match with
       | Option.some (.bool _) => .ok ()
       | Option.none => .ok ()
       | Option.some _ => .error ("Field '" ++ name ++ "': 'enable_match' must be a boolean value"))

/- ----------------------------------------------------------------------
   src/pyamlvus/validators/index.py : IndexValidator
   ---------------------------------------------------------------------- -/

/-- An index definition.  `field`, `type` and `metric` are embedded as
strings (their universe in the data model); `params`, when the key is
present, is a dict.  The `params`-is-a-dict guard of
`_validate_index_params` is discharged by this typing. -/
structure IndexDef where
  field : Option String := Option.none
  type : Option String := Option.none
  metric : Option String := Option.none
  params : Option PyDict := Option.none

/-- The field-name-to-type map the validator is constructed with. -/
abbrev FieldTypes := List (String × String)

/-- `IndexValidator._validate_index_type`. -/
def validateIndexType (c : Compat) (indexType : String) (fieldType : String)
    (fieldName : String) : Except String Unit :=
  if optionalTypeSupport c fieldType = Option.some false then
    .error ("Field type '" ++ fieldType ++ "' requires additional support (" ++
      (optionalTypeRequirement fieldType).getD "" ++ ").")
  else
    let validTypes := validIndexTypes c fieldType
    let indexTypeUpper := pyToUpper indexType
    match optionalIndexRequirement indexTypeUpper with
    | Option.some req =>
      if !optionalIndexSupport c indexTypeUpper then
        .error ("Index type '" ++ indexType ++ "' requires additional support (" ++ req ++
          "). Current pymilvus version: " ++ c.versionStr ++ ".")
      else if indexTypeUpper ∈ validTypes then .ok ()
      else
        .error ("Index type '" ++ indexType ++ "' is not valid for " ++ fieldType ++
          " field '" ++ fieldName ++ "'. Valid types: " ++
          pyStrList (sortStrings validTypes) ++
          (match recommendedIndexType c fieldType with
           | Option.some r => " Recommended: " ++ r
           | Option.none => "") ++
          ". Fix: Use one of the valid index types listed above.")
    | Option.none =>
      if indexTypeUpper ∈ validTypes then .ok ()
      else
        .error ("Index type '" ++ indexType ++ "' is not valid for " ++ fieldType ++
          " field '" ++ fieldName ++ "'. Valid types: " ++
          pyStrList (sortStrings validTypes) ++
          (match recommendedIndexType c fieldType with
           | Option.some r => " Recommended: " ++ r
           | Option.none => "") ++
          ". Fix: Use one of the valid index types listed above.")

/-- `IndexValidator._validate_metric`.  `indexType` is the (possibly
uppercased) type, `Option.none`/empty when absent or falsy. -/
def validateMetric (c : Compat) (metric : String) (fieldType : String)
    (fieldName : String) (indexType : Option String) : Except String Unit :=
  let metricUpper := pyToUpper metric
  let gpuClash :=
    match indexType with
    | Option.some t => !t.isEmpty && t ∈ gpuIndexTypes c && metricUpper = "COSINE"
    | Option.none => false
  if gpuClash then
    .error ("Metric 'COSINE' is not supported for GPU index '" ++
      (indexType.getD "") ++ "' on field '" ++ fieldName ++
      "'. Use L2 or IP after normalizing vectors.")
  else if fieldType = "float_vector" ∨ fieldType = "float16_vector" ∨
      fieldType = "bfloat16_vector" ∨ fieldType = "int8_vector" then
    if metricUpper ∈ FLOAT_METRICS then .ok ()
    else
      .error ("Invalid metric '" ++ metric ++ "' for " ++ fieldType ++ " field '" ++
        fieldName ++ "'. Allowed: " ++ pyStrList (sortStrings FLOAT_METRICS))
  else if fieldType = "binary_vector" then
    if metricUpper ∈ BINARY_METRICS then .ok ()
    else
      .error ("Invalid metric '" ++ metric ++ "' for binary_vector field '" ++
        fieldName ++ "'. Allowed: " ++ pyStrList (sortStrings BINARY_METRICS))
  else if fieldType = "sparse_float_vector" then
    if metricUpper = "BM25" ∨ metricUpper = "IP" then .ok ()
    else
      .error ("Invalid metric '" ++ metric ++ "' for sparse_float_vector field '" ++
        fieldName ++ "'. Allowed: BM25, IP")
  else .ok ()

/-- `IndexValidator._validate_index_param`: range checks of one known
parameter. -/
def validateIndexParam (paramName : String) (paramValue : PyVal) (indexType : String)
    (fieldName : String) : Except String Unit := do
  (if indexType = "HNSW" then
    if paramName = "M" ∨ paramName = "efConstruction" then
      match pyIntVal paramValue with
      | Option.none =>
        .error ("HNSW parameter '" ++ paramName ++ "' for field '" ++ fieldName ++
          "' must be a positive integer, got " ++ pyStr paramValue)
      | Option.some n =>
        if n ≤ 0 then
          .error ("HNSW parameter '" ++ paramName ++ "' for field '" ++ fieldName ++
            "' must be a positive integer, got " ++ pyStr paramValue)
        else if paramName = "M" ∧ n > 100 then
          .error ("HNSW parameter 'M' for field '" ++ fieldName ++ "' is too large (" ++
            pyStr paramValue ++ "). Recommended: 4-100")
        else .ok ()
    else .ok ()
  else if indexType = "IVF_FLAT" ∨ indexType = "IVF_SQ8" ∨ indexType = "IVF_PQ" then
    if paramName = "nlist" then
      match pyIntVal paramValue with
      | Option.none =>
        .error ("IVF parameter 'nlist' for field '" ++ fieldName ++
          "' must be a positive integer, got " ++ pyStr paramValue)
      | Option.some n =>
        if n ≤ 0 then
          .error ("IVF parameter 'nlist' for field '" ++ fieldName ++
            "' must be a positive integer, got " ++ pyStr paramValue)
        else if n > 65536 then
          .error ("IVF parameter 'nlist' for field '" ++ fieldName ++ "' is too large (" ++
            pyStr paramValue ++ "). Recommended: 100-10000")
        else .ok ()
    else .ok ()
  else .ok ())
  (if indexType = "IVF_PQ" ∧ paramName = "m" then
    match pyIntVal paramValue with
    | Option.none =>
      .error ("PQ parameter 'm' for field '" ++ fieldName ++
        "' must be a positive integer, got " ++ pyStr paramValue)
    | Option.some n =>
      if n ≤ 0 then
        .error ("PQ parameter 'm' for field '" ++ fieldName ++
          "' must be a positive integer, got " ++ pyStr paramValue)
      else .ok ()
  else .ok ())

/-- `for param_name, param_value in params.items(): ...` (fail-fast). -/
def validateParamsLoop (params : PyDict) (indexType : String) (fieldName : String) :
    Except String Unit :=
  match params with
  | [] => .ok ()
  | (k, v) :: rest => do
    validateIndexParam k v indexType fieldName
    validateParamsLoop rest indexType fieldName

/-- `IndexValidator._validate_index_params`: the required-parameter check runs
before the per-parameter range checks, and missing names are reported sorted
in a single error. -/
def validateIndexParamsCore (params : PyDict) (indexType : String) (fieldName : String) :
    Except String Unit :=
  let missing := (requiredParams indexType).filter (fun p => !dmem params p)
  if !missing.isEmpty then
    .error ("Index '" ++ indexType ++ "' for field '" ++ fieldName ++
      "' missing required parameters: " ++ pyStrList (sortStrings missing))
  else validateParamsLoop params indexType fieldName

/-- `IndexValidator.validate`. -/
def indexValidate (c : Compat) (fieldTypes : FieldTypes) (item : IndexDef) :
    Except String Unit :=
  match item.field with
  | Option.none => .error "Index definition missing required 'field'"
  | Option.some fieldName =>
    match fieldTypes.lookup fieldName with
    | Option.none => .error ("Index refers to unknown field '" ++ fieldName ++ "'")
    | Option.some fieldType =>
      let normType : Option String := item.type.map pyToUpper
      let typeTruthy : Bool :=
        match item.type with
        | Option.some t => !t.isEmpty
        | Option.none => false
      do
        (if typeTruthy then validateIndexType c (normType.getD "") fieldType fieldName
         else .ok ())
        (match item.metric with
         | Option.some m => validateMetric c m fieldType fieldName normType
         | Option.none => .ok ())
        validateIndexParamsCore (item.params.getD []) (normType.getD "") fieldName

/- ----------------------------------------------------------------------
   src/pyms/validators/schema.py : resolve_autoindex_flag
   (the same logic as SchemaBuilder.autoindex_enabled in
   src/pyamlvus/builders/schema.py, message for message)
   ---------------------------------------------------------------------- -/

def PyVal.isNone : PyVal → Bool
  | .none => true
  | _ => false

/-- The six autoindex candidate slots, in the order the source probes them;
the `settings.*` trio exists only when `settings` is a dict. -/
def autoindexCandidates (schema : PyDict) : List (String × PyVal) :=
  [("autoindex", dget schema "autoindex"),
   ("enable_autoindex", dget schema "enable_autoindex"),
   ("use_autoindex", dget schema "use_autoindex")]
  ++ (match dget schema "settings" with
      | .dict settings =>
        [("settings.autoindex", dget settings "autoindex"),
         ("settings.enable_autoindex", dget settings "enable_autoindex"),
         ("settings.use_autoindex", dget settings "use_autoindex")]
      | _ => [])

/-- `found = [(key, value) ... if value is not None]`. -/
def autoindexFound (schema : PyDict) : List (String × PyVal) :=
  (autoindexCandidates schema).filter (fun kv => !kv.2.isNone)

/-- `resolve_autoindex_flag`. -/
def resolveAutoindexFlag (schema : PyDict) : Except String Bool :=
  let found := autoindexFound schema
  if found.length > 1 then
    .error ("Multiple autoindex settings found: " ++
      String.intercalate ", " (found.map (fun kv => kv.1)) ++
      ". Please specify only one autoindex setting.")
  else
    match found with
    | [] => .ok false
    | (key, value) :: _ =>
      match value with
      | .bool b => .ok b
      | v =>
        .error ("Invalid autoindex value '" ++ pyStr v ++ "' (type: " ++ v.typeName ++
          ") for key '" ++ key ++ "'. Expected boolean value (true or false)")

/- ----------------------------------------------------------------------
   src/pyms/builders/schema.py and src/pyamlvus/builders/schema.py :
   SchemaBuilder.is_bm25_function_output_field
   ---------------------------------------------------------------------- -/

/-- A function definition, restricted to the keys
`is_bm25_function_output_field` reads. -/
structure FuncDef where
  type : Option String := Option.none
  function_type : Option String := Option.none
  output_field : Option PyVal := Option.none
  output_field_names : Option PyVal := Option.none
  output_fields : Option PyVal := Option.none

/-- `func_def.get("type") or func_def.get("function_type", "").upper()`:
note that `.upper()` binds to the `function_type` fallback only — a truthy
`type` value is used verbatim, case-sensitively. -/
def funcTypeOf (f : FuncDef) : String :=
  match f.type with
  | Option.some t => if !t.isEmpty then t else pyToUpper (f.function_type.getD "")
  | Option.none => pyToUpper (f.function_type.getD "")

/-- The str/list coercion inside the output-key loop. -/
def outputFromVal : PyVal → List PyVal
  | .str s => [.str s]
  | .list xs => xs
  | _ => []

/-- The `for key in ["output_field", "output_field_names", "output_fields"]`
loop: the first key with a truthy value wins (and a truthy value of another
shape yields no output fields). -/
def outputFieldsOf (f : FuncDef) : List PyVal :=
  let v1 := f.output_field.getD PyVal.none
  let v2 := f.output_field_names.getD PyVal.none
  let v3 := f.output_fields.getD PyVal.none
  if v1.truthy then outputFromVal v1
  else if v2.truthy then outputFromVal v2
  else if v3.truthy then outputFromVal v3
  else []

/-- `SchemaBuilder.is_bm25_function_output_field`. -/
def isBM25FunctionOutputField (functions : List FuncDef) (fieldName : String) : Bool :=
  functions.any (fun f =>
    funcTypeOf f = "BM25" &&
      (outputFieldsOf f).any (fun v =>
        match v with
        | .str s => s = fieldName
        | _ => false))

/- ----------------------------------------------------------------------
   src/pyamlvus/builders/index.py : IndexBuilder
   ---------------------------------------------------------------------- -/

/-- What `IndexBuilder` reads off its schema builder: the feature flags, the
field-type map, the declared functions and the resolved autoindex flag. -/
structure BuilderCtx where
  compat : Compat
  fieldTypes : FieldTypes
  functions : List FuncDef
  autoindex : Bool

/-- The dictionary `get_index_params` returns, key for key
(`index_type` always; `metric_type` and `params` when set). -/
structure IndexParams where
  index_type : String
  metric_type : Option String := Option.none
  params : Option PyDict := Option.none

/-- The `if key not in params: params[key] = default` idiom of
`get_index_params` (the insert lands at the end, as a Python dict insert
does). -/
def setDefault (params : PyDict) (k : String) (v : PyVal) : PyDict :=
  if dmem params k then params else params ++ [(k, v)]

/-- The SPARSE_INVERTED_INDEX default insertion of `get_index_params`:
`inverted_index_algo` always, `bm25_k1`/`bm25_b` when the field is a BM25
output field — each only when not already present (user values win). -/
def sparseDefaultParams (bm25 : Bool) (params : PyDict) : PyDict :=
  let pA := setDefault params "inverted_index_algo" (.str "DAAT_MAXSCORE")
  if bm25 then
    setDefault (setDefault pA "bm25_k1" (.float 1.2)) "bm25_b" (.float 0.75)
  else pA

/-- `IndexBuilder.get_index_params`, together with the final state of the
caller's `index_def` dict: the source writes the resolved `type` (and a
defaulted `metric`) back into `index_def`, and inserts the
SPARSE_INVERTED_INDEX defaults into the caller's `params` dict in place —
but only when that dict was supplied non-empty, because
`index_def.get("params") or` a fresh dict replaces a falsy (empty or absent)
value with a fresh dict. -/
def getIndexParamsFull (ctx : BuilderCtx) (indexDef : IndexDef) :
    Except String (IndexParams × IndexDef) :=
  match indexValidate ctx.compat ctx.fieldTypes indexDef with
  | .error e => .error e
  | .ok _ =>
    match indexDef.field with
    | Option.none => .error "Index definition missing required 'field'"
    | Option.some fieldName =>
      if fieldName.isEmpty then .error "Index definition missing required 'field'"
      else
        let typeTruthy : Bool :=
          match indexDef.type with
          | Option.some t => !t.isEmpty
          | Option.none => false
        let resolved : Except String (String × IndexDef) :=
          if typeTruthy then .ok (indexDef.type.getD "", indexDef)
          else if isBM25FunctionOutputField ctx.functions fieldName then
            let d1 := { indexDef with type := Option.some "SPARSE_INVERTED_INDEX" }
            let d2 :=
              if d1.metric.isSome then d1 else { d1 with metric := Option.some "BM25" }
            .ok ("SPARSE_INVERTED_INDEX", d2)
          else if ctx.autoindex then
            .ok ("AUTOINDEX", { indexDef with type := Option.some "AUTOINDEX" })
          else
            .error ("Index for field '" ++ fieldName ++ "' missing required 'type'. " ++
              "Either specify an index type or enable autoindex in your schema.")
        match resolved with
        | .error e => .error e
        | .ok (indexType, def1) =>
          let metricTruthy : Bool :=
            match def1.metric with
            | Option.some m => !m.isEmpty
            | Option.none => false
          let metricType : Option String :=
            if metricTruthy then Option.some (def1.metric.getD "")
            else if isBM25FunctionOutputField ctx.functions fieldName ∧
                indexType = "SPARSE_INVERTED_INDEX" then Option.some "BM25"
            else Option.none
          let suppliedNonEmpty : Bool :=
            match def1.params with
            | Option.some ps => !ps.isEmpty
            | Option.none => false
          let params0 : PyDict := if suppliedNonEmpty then def1.params.getD [] else []
          let params1 : PyDict :=
            if indexType = "SPARSE_INVERTED_INDEX" then
              sparseDefaultParams (isBM25FunctionOutputField ctx.functions fieldName) params0
            else params0
          let resultParams : Option PyDict :=
            if params1.isEmpty then Option.none else Option.some params1
          let def2 : IndexDef :=
            if suppliedNonEmpty then { def1 with params := Option.some params1 } else def1
          .ok (⟨indexType, metricType, resultParams⟩, def2)

/-- `IndexBuilder.get_index_params` as the caller sees its return value. -/
def getIndexParams (ctx : BuilderCtx) (indexDef : IndexDef) : Except String IndexParams :=
  (getIndexParamsFull ctx indexDef).map (fun r => r.1)

/-- One tuple registered with `MilvusClient.prepare_index_params().add_index`:
exactly the kwargs `get_milvus_index_params` extracts. -/
structure AddIndexCall where
  field_name : String
  index_type : String
  metric_type : Option String := Option.none
  params : Option PyDict := Option.none

/-- The tuple `get_index_params` standalone would induce for one index
definition (the claim's comparison point). -/
def standaloneCall (ctx : BuilderCtx) (d : IndexDef) : Except String AddIndexCall :=
  match getIndexParamsFull ctx d with
  | .error e => .error e
  | .ok (p, _) =>
    match d.field with
    | Option.none => .error "KeyError: 'field'"
    | Option.some f => .ok ⟨f, p.index_type, p.metric_type, p.params⟩

/-- `IndexBuilder.get_milvus_index_params`: the loop over
`schema_builder.indexes`, collecting the kwargs passed to `add_index`
(`field_name` and `index_type` always; `metric_type` and `params` when
present in the `get_index_params` result). -/
def getMilvusIndexParams (ctx : BuilderCtx) : List IndexDef → Except String (List AddIndexCall)
  | [] => .ok []
  | d :: rest =>
    match getIndexParamsFull ctx d with
    | .error e => .error e
    | .ok (p, _) =>
      match d.field with
      | Option.none => .error "KeyError: 'field'"
      | Option.some f =>
        match getMilvusIndexParams ctx rest with
        | .error e => .error e
        | .ok calls => .ok (⟨f, p.index_type, p.metric_type, p.params⟩ :: calls)

/- ----------------------------------------------------------------------
   src/pyamlvus/builders/field.py : FieldBuilder
   ---------------------------------------------------------------------- -/

/-- Python `d.pop(k, None)` on a params dict: remove the key. -/
def dpop (d : PyDict) (k : String) : PyDict :=
  d.filter (fun kv => kv.1 ≠ k)

/-- `FieldBuilder._build_type_params`. -/
def buildTypeParams (c : Compat) (f : FieldDef) (typeStr : String) (fieldName : String) :
    Except String PyDict :=
  if typeStr = "varchar" then
    let ml := f.max_length.getD PyVal.none
    .ok (if ml.isNone then [] else [("max_length", ml)])
  else if typeStr = "float_vector" ∨ typeStr = "float16_vector" ∨
      typeStr = "bfloat16_vector" ∨ typeStr = "int8_vector" ∨
      typeStr = "binary_vector" ∨ typeStr = "sparse_float_vector" then
    let d := f.dim.getD PyVal.none
    .ok (if d.isNone then [] else [("dim", d)])
  else if typeStr = "array" then
    let withElem : Except String PyDict :=
      match f.element_type with
      | Option.some e =>
        if e.isEmpty then .ok []
        else
          match typeMapping c e with
          | Option.some mapped => .ok [("element_type", .str mapped)]
          | Option.none =>
            .error ("Unsupported array element type '" ++ e ++ "' for field '" ++
              fieldName ++ "'")
      | Option.none => .ok []
    match withElem with
    | .error e => .error e
    | .ok params =>
      let mc := f.max_capacity.getD PyVal.none
      .ok (if mc.isNone then params else params ++ [("max_capacity", mc)])
  else .ok []

/-- `_build_field_kwargs`, opening section: `name`, `dtype`, `description`,
then `is_primary`/`auto_id` when the field is primary-flagged. -/
def kwargsHead (c : Compat) (f : FieldDef) (name : String) (typeStr : String) : PyDict :=
  let kwargs0 : PyDict :=
    [("name", .str name),
     ("dtype", .str ((typeMapping c typeStr).getD "")),
     ("description", f.description.getD (.str ""))]
  if (f.is_primary.getD (.bool false)).truthy then
    kwargs0 ++ [("is_primary", .bool true), ("auto_id", f.auto_id.getD (.bool false))]
  else kwargs0

/-- `_build_field_kwargs`, middle section: the type-specific direct
parameters (`max_length`, `dim`, `element_type`/`max_capacity`), each popped
out of the type-params dict when attached directly. -/
def kwargsDirect (c : Compat) (f : FieldDef) (typeStr : String)
    (kwargs1 : PyDict) (params0 : PyDict) : PyDict × PyDict :=
  if typeStr = "varchar" then
    let ml := f.max_length.getD PyVal.none
    if ml.isNone then (kwargs1, params0)
    else (kwargs1 ++ [("max_length", ml)], dpop params0 "max_length")
  else if typeStr = "float_vector" ∨ typeStr = "float16_vector" ∨
      typeStr = "bfloat16_vector" ∨ typeStr = "int8_vector" ∨
      typeStr = "binary_vector" ∨ typeStr = "sparse_float_vector" then
    let d := f.dim.getD PyVal.none
    if d.isNone then (kwargs1, params0)
    else (kwargs1 ++ [("dim", d)], dpop params0 "dim")
  else if typeStr = "array" then
    let step1 : PyDict × PyDict :=
      match f.element_type with
      | Option.some e =>
        if !e.isEmpty ∧ (typeMapping c e).isSome then
          (kwargs1 ++ [("element_type", .str ((typeMapping c e).getD ""))],
           dpop params0 "element_type")
        else (kwargs1, params0)
      | Option.none => (kwargs1, params0)
    let mc := f.max_capacity.getD PyVal.none
    let step2 : PyDict × PyDict :=
      if mc.isNone then step1
      else (step1.1 ++ [("max_capacity", mc)], dpop step1.2 "max_capacity")
    if f.element_type = Option.some "varchar" then
      let ml := f.max_length.getD PyVal.none
      if ml.isNone then step2
      else (step2.1 ++ [("max_length", ml)], dpop step2.2 "max_length")
    else step2
  else (kwargs1, params0)

/-- `_build_field_kwargs`, closing section: the analyzer/match flags, the
default analyzer params, `multi_analyzer_params`, `nullable`, and the
residual `params` dict when non-empty. -/
def kwargsTail (f : FieldDef) (kwargs2 : PyDict) (params1 : PyDict) : PyDict :=
  let kwargs3 :=
    match f.enable_analyzer with
    | Option.some v => kwargs2 ++ [("enable_analyzer", .bool v.truthy)]
    | Option.none => kwargs2
  let kwargs4 :=
    match f.enable_match with
    | Option.some v => kwargs3 ++ [("enable_match", .bool v.truthy)]
    | Option.none => kwargs3
  -- `kwargs.get("enable_analyzer") is True`
  let analyzerOn : Bool :=
    match dget kwargs4 "enable_analyzer" with
    | .bool b => b
    | _ => false
  let kwargs5 :=
    if analyzerOn then
      let provided := f.analyzer_params.getD PyVal.none
      if !provided.truthy then
        kwargs4 ++ [("analyzer_params", .dict [("type", .str "english")])]
      else kwargs4 ++ [("analyzer_params", provided)]
    else kwargs4
  let kwargs6 :=
    match f.multi_analyzer_params with
    | Option.some v => kwargs5 ++ [("multi_analyzer_params", v)]
    | Option.none => kwargs5
  let kwargs7 :=
    match f.nullable with
    | Option.some v => kwargs6 ++ [("nullable", .bool v.truthy)]
    | Option.none => kwargs6
  if params1.isEmpty then kwargs7 else kwargs7 ++ [("params", .dict params1)]

/-- `FieldBuilder._build_field_kwargs`: the keyword dictionary handed to the
engine's `FieldSchema` constructor, in insertion order (the three sections
above in sequence).  The `dtype` value is the engine type identifier's
name. -/
def buildFieldKwargs (c : Compat) (f : FieldDef) (name : String) (typeStr : String) :
    Except String PyDict :=
  match buildTypeParams c f typeStr name with
  | .error e => .error e
  | .ok params0 =>
    let kwargs1 := kwargsHead c f name typeStr
    let kp := kwargsDirect c f typeStr kwargs1 params0
    .ok (kwargsTail f kp.1 kp.2)

/-- `FieldBuilder.build_field`.  The terminal `FieldSchema(**kwargs)` call is
the external engine constructor (out of scope per the spec); the field
descriptor is embedded as its keyword dictionary. -/
def buildField (c : Compat) (f : FieldDef) : Except String PyDict :=
  let nameOk : Except String String :=
    match f.name with
    | Option.some n => if n.isEmpty then .error "Field missing required 'name' attribute" else .ok n
    | Option.none => .error "Field missing required 'name' attribute"
  match nameOk with
  | .error e => .error e
  | .ok name =>
    match f.type with
    | Option.none => .error ("Field '" ++ name ++ "' missing required 'type' attribute")
    | Option.some typeStr =>
      if typeStr.isEmpty then
        .error ("Field '" ++ name ++ "' missing required 'type' attribute")
      else if !(typeMapping c typeStr).isSome then
        .error ("Unsupported field type '" ++ typeStr ++ "' for field '" ++ name ++ "'")
      else buildFieldKwargs c f name typeStr

/- ----------------------------------------------------------------------
   src/pyms/builders/schema.py and src/pyamlvus/builders/schema.py :
   SchemaBuilder._build_fields / build
   ---------------------------------------------------------------------- -/

/-- Whether `_build_fields` counts a field as primary:
`field_def.get("is_primary", False)` truthiness. -/
def isPrimaryFlagged (f : FieldDef) : Bool :=
  (f.is_primary.getD (.bool false)).truthy

/-- The loop body of `_build_fields`: validate, build, collect, count. -/
def buildFieldsLoop (c : Compat) : List FieldDef → Except String (List PyDict × Nat)
  | [] => .ok ([], 0)
  | f :: rest =>
    match fieldValidate c f with
    | .error e => .error e
    | .ok _ =>
      match buildField c f with
      | .error e => .error e
      | .ok bf =>
        match buildFieldsLoop c rest with
        | .error e => .error e
        | .ok (bfs, n) =>
          .ok (bf :: bfs, (if isPrimaryFlagged f then 1 else 0) + n)

/-- `SchemaBuilder._build_fields`. -/
def buildFields (c : Compat) (fields : List FieldDef) : Except String (List PyDict) :=
  match buildFieldsLoop c fields with
  | .error e => .error e
  | .ok (bfs, primaryFieldCount) =>
    if primaryFieldCount = 0 then .error "Schema must have exactly one primary field"
    else if primaryFieldCount > 1 then
      .error ("Schema has " ++ toString primaryFieldCount ++
        " primary fields, must have exactly one")
    else .ok bfs

/-- The schema document, restricted to the keys `build` reads. -/
structure SchemaDoc where
  fields : List FieldDef := []
  indexes : List IndexDef := []
  description : Option PyVal := Option.none
  settings : Option PyDict := Option.none

/-- The field-name-to-type map the builder derives in its constructor
(later duplicates overwrite, as in a Python dict). -/
def fset (d : FieldTypes) (k v : String) : FieldTypes :=
  match d with
  | [] => [(k, v)]
  | (k', v') :: rest => if k' = k then (k, v) :: rest else (k', v') :: fset rest k v

def fieldTypesOf (fields : List FieldDef) : FieldTypes :=
  fields.foldl
    (fun m f =>
      match f.name, f.type with
      | Option.some n, Option.some t => fset m n t
      | _, _ => m)
    []

/-- The assembled collection descriptor. -/
structure CollectionDescr where
  fields : List PyDict
  description : PyVal
  enable_dynamic_field : PyVal

/-- The `for index_def in self.indexes: self.validate_index_params(index_def)`
loop at the end of `build`. -/
def indexValidateLoop (c : Compat) (ft : FieldTypes) : List IndexDef → Except String Unit
  | [] => .ok ()
  | d :: rest =>
    match indexValidate c ft d with
    | .error e => .error e
    | .ok _ => indexValidateLoop c ft rest

/-- `SchemaBuilder.build`.  The engine-side `CollectionSchema(...)` assembly
and `schema.verify()` are the external SDK (out of scope per the spec) and
are embedded as succeeding; everything the builder itself does is kept. -/
def build (c : Compat) (doc : SchemaDoc) : Except String CollectionDescr :=
  match buildFields c doc.fields with
  | .error e => .error e
  | .ok bfs =>
    let description := doc.description.getD (.str "")
    let settings := doc.settings.getD []
    let edf :=
      match settings.lookup "enable_dynamic_field" with
      | Option.some v => v
      | Option.none => .bool false
    match indexValidateLoop c (fieldTypesOf doc.fields) doc.indexes with
    | .error e => .error e
    | .ok _ => .ok ⟨bfs, description, edf⟩

/- ----------------------------------------------------------------------
   src/pyamlvus/__init__.py : validate_schema
   ---------------------------------------------------------------------- -/

/-- One run of the `validate_schema` try-block, each step abstracted to the
outcome of the underlying call (its list of strings, or the message of the
exception it raised): the loader property accesses plus `to_dict`, the
`SchemaBuilder` constructor, `build()`, the per-function
`validate_function` loop, `get_index_warnings()` and
`get_function_index_warnings()`. -/
structure ValidateRun where
  loaderSteps : Except String Unit
  builderInit : Except String Unit
  buildResult : Except String Unit
  functionChecks : Except String Unit
  indexWarnings : Except String (List String)
  funcIndexMessages : Except String (List String)

/-- `validate_schema`: the try/except wrapper.  `warnings` starts empty, is
assigned the index warnings, is extended with the function-index messages;
any exception anywhere lands its message in `errors`, and the function
returns `errors + warnings`. -/
def validateSchemaEntry (r : ValidateRun) : List String :=
  match r.loaderSteps with
  | .error e => [e]
  | .ok _ =>
    match r.builderInit with
    | .error e => [e]
    | .ok _ =>
      match r.buildResult with
      | .error e => [e]
      | .ok _ =>
        match r.functionChecks with
        | .error e => [e]
        | .ok _ =>
          match r.indexWarnings with
          | .error e => [e]
          | .ok warns =>
            match r.funcIndexMessages with
            | .error e => e :: warns
            | .ok msgs => warns ++ msgs

/- ----------------------------------------------------------------------
   Auxiliary definitions used only by the statements below
   ---------------------------------------------------------------------- -/

/-- Does the character list start with the given needle. -/
def charsHavePre : List Char → List Char → Bool
  | [], _ => true
  | _ :: _, [] => false
  | p :: ps, c :: cs => p = c && charsHavePre ps cs

/-- Is the needle a contiguous run of the haystack. -/
def charsInfix : List Char → List Char → Bool
  | needle, [] => needle.isEmpty
  | needle, c :: cs => charsHavePre needle (c :: cs) || charsInfix needle cs

/-- Python `needle in haystack` on strings. -/
def strContains (haystack needle : String) : Bool :=
  charsInfix needle.toList haystack.toList

/-- A fully-featured engine installation (every optional feature
supported), used to instantiate theorems at concrete inputs. -/
def compatAll : Compat := ⟨true, true, true, true, true, "2.6.2"⟩

/-- The set membership `is_bm25_function_output_field` actually decides,
stated declaratively: some declared function lists the name among its
output fields and its effective type is `BM25` — where a truthy `type` key
is compared verbatim (case-sensitively) and only the `function_type`
fallback is uppercased. -/
def isBM25OutputSpec (functions : List FuncDef) (name : String) : Prop :=
  ∃ f ∈ functions,
    (f.type = Option.some "BM25" ∨
      ((f.type = Option.none ∨ f.type = Option.some "") ∧
        pyToUpper (f.function_type.getD "") = "BM25")) ∧
    PyVal.str name ∈ outputFieldsOf f

instance exceptDecEq {ε α : Type} [DecidableEq ε] [DecidableEq α] :
    DecidableEq (Except ε α) := fun x y =>
  match x, y with
  | .ok a, .ok b =>
    if h : a = b then isTrue (by rw [h]) else isFalse (fun hh => h (Except.ok.inj hh))
  | .error a, .error b =>
    if h : a = b then isTrue (by rw [h]) else isFalse (fun hh => h (Except.error.inj hh))
  | .ok _, .error _ => isFalse (fun hh => Except.noConfusion hh)
  | .error _, .ok _ => isFalse (fun hh => Except.noConfusion hh)

/- ----------------------------------------------------------------------
   Helper lemmas
   ---------------------------------------------------------------------- -/

@[simp] theorem exceptBindOk {α β : Type} (a : α) (f : α → Except String β) :
    (Except.ok a >>= f) = f a := rfl

@[simp] theorem exceptBindErr {α β : Type} (e : String) (f : α → Except String β) :
    (Except.error e >>= f : Except String β) = Except.error e := rfl

theorem pd_lookup_append (l₁ l₂ : PyDict) (k : String) :
    (l₁ ++ l₂).lookup k = ((l₁.lookup k).or (l₂.lookup k)) := by
  induction l₁ with
  | nil => simp
  | cons hd tl ih =>
    obtain ⟨k', v⟩ := hd
    by_cases h : k = k'
    · subst h
      simp [List.lookup]
    · have hb : (k == k') = false := beq_eq_false_iff_ne.mpr h
      simp [List.lookup, hb, ih]

theorem dmem_append (l₁ l₂ : PyDict) (k : String) :
    dmem (l₁ ++ l₂) k = (dmem l₁ k || dmem l₂ k) := by
  simp only [dmem, pd_lookup_append]
  cases l₁.lookup k <;> cases l₂.lookup k <;> simp

theorem lookup_single_ne (k k' : String) (v : PyVal) (h : k ≠ k') :
    ([(k, v)] : PyDict).lookup k' = Option.none := by
  have hb : (k' == k) = false := beq_eq_false_iff_ne.mpr (Ne.symm h)
  simp [List.lookup, hb]

theorem lookup_single_eq (k : String) (v : PyVal) :
    ([(k, v)] : PyDict).lookup k = Option.some v := by
  simp [List.lookup]

theorem lookup_append_cons_ne (l rest : PyDict) (k k' : String) (v : PyVal)
    (h : k' ≠ k) : ((l ++ (k', v) :: rest).lookup k) = (l ++ rest).lookup k := by
  rw [pd_lookup_append, pd_lookup_append]
  have hb : (k == k') = false := beq_eq_false_iff_ne.mpr (Ne.symm h)
  simp [List.lookup, hb]

theorem dmem_append_cons_ne (l rest : PyDict) (k k' : String) (v : PyVal)
    (h : k' ≠ k) : dmem (l ++ (k', v) :: rest) k = dmem (l ++ rest) k := by
  simp [dmem, lookup_append_cons_ne _ _ _ _ _ h]

theorem dmem_iff_lookup (x : PyDict) (k : String) :
    dmem x k = true ↔ ∃ v, x.lookup k = Option.some v := by
  simp [dmem, Option.isSome_iff_exists]

theorem setDefault_lookup_self (x : PyDict) (k : String) (v : PyVal) :
    (setDefault x k v).lookup k = Option.some ((x.lookup k).getD v) := by
  unfold setDefault
  by_cases h : dmem x k = true
  · obtain ⟨w, hw⟩ := (dmem_iff_lookup x k).mp h
    simp [h, hw]
  · have hl : x.lookup k = Option.none := by
      cases hx : x.lookup k with
      | none => rfl
      | some w => rw [dmem, hx] at h; simp at h
    simp [h, pd_lookup_append, hl, List.lookup]

theorem setDefault_lookup_ne (x : PyDict) (k : String) (v : PyVal) (k' : String)
    (h : k ≠ k') : (setDefault x k v).lookup k' = x.lookup k' := by
  unfold setDefault
  by_cases hd : dmem x k = true
  · simp [hd]
  · rw [if_neg hd, pd_lookup_append, lookup_single_ne k k' v h]
    cases x.lookup k' <;> simp

theorem setDefault_preserves (x : PyDict) (k : String) (v : PyVal) (k' : String)
    (w : PyVal) (h : x.lookup k' = Option.some w) :
    (setDefault x k v).lookup k' = Option.some w := by
  by_cases he : k = k'
  · subst he
    rw [setDefault_lookup_self, h]
    rfl
  · rw [setDefault_lookup_ne _ _ _ _ he, h]

theorem setDefault_isEmpty (x : PyDict) (k : String) (v : PyVal) :
    (setDefault x k v).isEmpty = false := by
  by_cases hd : dmem x k = true
  · rw [setDefault, if_pos hd]
    cases hx : x with
    | nil =>
      subst hx
      rw [dmem] at hd
      simp [List.lookup] at hd
    | cons a l => rfl
  · rw [setDefault, if_neg hd]
    simp

theorem setDefault_dmem_self (x : PyDict) (k : String) (v : PyVal) :
    dmem (setDefault x k v) k = true := by
  rw [dmem, setDefault_lookup_self]
  rfl

theorem setDefault_dmem_stable (x : PyDict) (k : String) (v : PyVal)
    (h : dmem x k = true) : setDefault x k v = x := by
  rw [setDefault, if_pos h]

theorem sdp_lookup_algo (b : Bool) (x : PyDict) :
    (sparseDefaultParams b x).lookup "inverted_index_algo" =
      Option.some ((x.lookup "inverted_index_algo").getD (.str "DAAT_MAXSCORE")) := by
  unfold sparseDefaultParams
  cases b with
  | false => exact setDefault_lookup_self _ _ _
  | true =>
    simp only [if_true]
    rw [setDefault_lookup_ne _ _ _ _ (by decide), setDefault_lookup_ne _ _ _ _ (by decide),
      setDefault_lookup_self]

theorem sdp_lookup_k1 (x : PyDict) :
    (sparseDefaultParams true x).lookup "bm25_k1" =
      Option.some ((x.lookup "bm25_k1").getD (.float 1.2)) := by
  unfold sparseDefaultParams
  simp only [if_true]
  rw [setDefault_lookup_ne _ _ _ _ (by decide), setDefault_lookup_self,
    setDefault_lookup_ne _ _ _ _ (by decide)]

theorem sdp_lookup_b25 (x : PyDict) :
    (sparseDefaultParams true x).lookup "bm25_b" =
      Option.some ((x.lookup "bm25_b").getD (.float 0.75)) := by
  unfold sparseDefaultParams
  simp only [if_true]
  rw [setDefault_lookup_self, setDefault_lookup_ne _ _ _ _ (by decide),
    setDefault_lookup_ne _ _ _ _ (by decide)]

theorem sdp_preserves (b : Bool) (x : PyDict) (k : String) (w : PyVal)
    (h : x.lookup k = Option.some w) :
    (sparseDefaultParams b x).lookup k = Option.some w := by
  unfold sparseDefaultParams
  cases b with
  | false => exact setDefault_preserves _ _ _ _ _ h
  | true =>
    simp only [if_true]
    exact setDefault_preserves _ _ _ _ _
      (setDefault_preserves _ _ _ _ _ (setDefault_preserves _ _ _ _ _ h))

theorem sdp_isEmpty (b : Bool) (x : PyDict) :
    (sparseDefaultParams b x).isEmpty = false := by
  unfold sparseDefaultParams
  cases b with
  | false => exact setDefault_isEmpty _ _ _
  | true =>
    simp only [if_true]
    exact setDefault_isEmpty _ _ _

theorem sdp_dmem_algo (b : Bool) (x : PyDict) :
    dmem (sparseDefaultParams b x) "inverted_index_algo" = true := by
  rw [dmem, sdp_lookup_algo]
  rfl

theorem sdp_dmem_k1 (x : PyDict) :
    dmem (sparseDefaultParams true x) "bm25_k1" = true := by
  rw [dmem, sdp_lookup_k1]
  rfl

theorem sdp_dmem_b25 (x : PyDict) :
    dmem (sparseDefaultParams true x) "bm25_b" = true := by
  rw [dmem, sdp_lookup_b25]
  rfl

theorem sdp_stable (b : Bool) (y : PyDict)
    (h1 : dmem y "inverted_index_algo" = true)
    (h2 : b = true → dmem y "bm25_k1" = true ∧ dmem y "bm25_b" = true) :
    sparseDefaultParams b y = y := by
  unfold sparseDefaultParams
  cases b with
  | false => exact setDefault_dmem_stable _ _ _ h1
  | true =>
    obtain ⟨hk, hb⟩ := h2 rfl
    simp only [if_true]
    rw [setDefault_dmem_stable _ _ _ h1, setDefault_dmem_stable _ _ _ hk,
      setDefault_dmem_stable _ _ _ hb]

theorem sdp_idem (b : Bool) (x : PyDict) :
    sparseDefaultParams b (sparseDefaultParams b x) = sparseDefaultParams b x :=
  sdp_stable b _ (sdp_dmem_algo b x)
    (fun hb => by subst hb; exact ⟨sdp_dmem_k1 x, sdp_dmem_b25 x⟩)

/-- The lexicographic-order equivalence for the Python tuple comparison. -/
theorem tupleLt_iff_lex (a b : List Nat) : tupleLt a b = true ↔ List.Lex (· < ·) a b := by
  induction a generalizing b with
  | nil =>
    cases b with
    | nil =>
      simp only [tupleLt, Bool.false_eq_true, false_iff]
      intro h; cases h
    | cons y ys =>
      simp only [tupleLt, true_iff]
      exact List.Lex.nil
  | cons x xs ih =>
    cases b with
    | nil =>
      simp only [tupleLt, Bool.false_eq_true, false_iff]
      intro h; cases h
    | cons y ys =>
      simp only [tupleLt]
      by_cases hxy : x < y
      · simp only [hxy, if_true, true_iff]
        exact List.Lex.rel hxy
      · by_cases hyx : y < x
        · simp only [hxy, hyx, if_true, if_false, Bool.false_eq_true, false_iff]
          intro h
          cases h with
          | cons h => exact Nat.lt_irrefl _ hyx
          | rel h => exact hxy h
        · have hxyeq : x = y := Nat.le_antisymm (Nat.not_lt.mp hyx) (Nat.not_lt.mp hxy)
          subst hxyeq
          simp only [hxy, if_false, ih]
          constructor
          · exact List.Lex.cons
          · intro h
            cases h with
            | cons h => exact h
            | rel h => exact absurd h hxy

@[simp]
theorem str_empty_isEmpty : "".isEmpty = true := rfl

theorem getIndexParamsFull_ok_validate {ctx : BuilderCtx} {d : IndexDef}
    {r : IndexParams × IndexDef} (h : getIndexParamsFull ctx d = .ok r) :
    indexValidate ctx.compat ctx.fieldTypes d = .ok () := by
  unfold getIndexParamsFull at h
  cases hv : indexValidate ctx.compat ctx.fieldTypes d with
  | error e => rw [hv] at h; simp at h
  | ok u => cases u; rfl

theorem getIndexParamsFull_bm25_eval (ctx : BuilderCtx) (idx : IndexDef) (fname : String)
    (hf : idx.field = Option.some fname) (hne : fname.isEmpty = false)
    (ht : idx.type = Option.none ∨ idx.type = Option.some "")
    (hbm : isBM25FunctionOutputField ctx.functions fname = true)
    (hval : indexValidate ctx.compat ctx.fieldTypes idx = .ok ()) :
    getIndexParamsFull ctx idx =
      .ok (⟨"SPARSE_INVERTED_INDEX",
            (match idx.metric with
             | Option.some m => if m.isEmpty then Option.some "BM25" else Option.some m
             | Option.none => Option.some "BM25"),
            Option.some (sparseDefaultParams true
              (match idx.params with
               | Option.some ps => ps
               | Option.none => []))⟩,
           { idx with
             type := Option.some "SPARSE_INVERTED_INDEX",
             metric := (match idx.metric with
                        | Option.some m => Option.some m
                        | Option.none => Option.some "BM25"),
             params := (match idx.params with
                        | Option.some ps =>
                          if ps.isEmpty then Option.some ps
                          else Option.some (sparseDefaultParams true ps)
                        | Option.none => Option.none) }) := by
  unfold getIndexParamsFull
  rw [hval]
  rcases ht with ht | ht <;>
  simp only [hf, hne, ht, hbm, Bool.false_eq_true, if_false, if_true,
    str_empty_isEmpty, Bool.not_true] <;>
  cases hm : idx.metric with
  | none =>
    cases hp : idx.params with
    | none => simp [hbm, sdp_isEmpty]
    | some ps =>
      by_cases hps : ps.isEmpty = true
      · have : ps = [] := List.isEmpty_iff.mp hps
        subst this
        simp [hbm, hm, hps, sdp_isEmpty]
      · simp [hbm, hm, hps, sdp_isEmpty]
  | some m =>
    by_cases hme : m.isEmpty = true
    · cases hp : idx.params with
      | none => simp [hbm, hm, hme, sdp_isEmpty]
      | some ps =>
        by_cases hps : ps.isEmpty = true
        · have : ps = [] := List.isEmpty_iff.mp hps
          subst this
          simp [hbm, hm, hme, hps, sdp_isEmpty]
        · simp [hbm, hm, hme, hps, sdp_isEmpty]
    · cases hp : idx.params with
      | none => simp [hbm, hm, hme, sdp_isEmpty]
      | some ps =>
        by_cases hps : ps.isEmpty = true
        · have : ps = [] := List.isEmpty_iff.mp hps
          subst this
          simp [hbm, hm, hme, hps, sdp_isEmpty]
        · simp [hbm, hm, hme, hps, sdp_isEmpty]

theorem getIndexParamsFull_autoindex_eval (ctx : BuilderCtx) (idx : IndexDef)
    (fname : String)
    (hf : idx.field = Option.some fname) (hne : fname.isEmpty = false)
    (ht : idx.type = Option.none ∨ idx.type = Option.some "")
    (hbm : isBM25FunctionOutputField ctx.functions fname = false)
    (hauto : ctx.autoindex = true)
    (hval : indexValidate ctx.compat ctx.fieldTypes idx = .ok ()) :
    getIndexParamsFull ctx idx =
      .ok (⟨"AUTOINDEX",
            (match idx.metric with
             | Option.some m => if m.isEmpty then Option.none else Option.some m
             | Option.none => Option.none),
            (match idx.params with
             | Option.some ps => if ps.isEmpty then Option.none else Option.some ps
             | Option.none => Option.none)⟩,
           { idx with type := Option.some "AUTOINDEX" }) := by
  unfold getIndexParamsFull
  rw [hval]
  rcases ht with ht | ht <;>
  simp only [hf, hne, ht, hbm, hauto, Bool.false_eq_true, if_false, if_true,
    str_empty_isEmpty, Bool.not_true] <;>
  cases hm : idx.metric with
  | none =>
    cases hp : idx.params with
    | none => simp [hbm]
    | some ps =>
      by_cases hps : ps.isEmpty = true
      · have : ps = [] := List.isEmpty_iff.mp hps
        subst this
        simp [hbm, hm, hps]
      · simp [hbm, hm, hps]
  | some m =>
    by_cases hme : m.isEmpty = true
    · cases hp : idx.params with
      | none => simp [hbm, hm, hme]
      | some ps =>
        by_cases hps : ps.isEmpty = true
        · have : ps = [] := List.isEmpty_iff.mp hps
          subst this
          simp [hbm, hm, hme, hps]
        · simp [hbm, hm, hme, hps]
    · cases hp : idx.params with
      | none => simp [hbm, hm, hme]
      | some ps =>
        by_cases hps : ps.isEmpty = true
        · have : ps = [] := List.isEmpty_iff.mp hps
          subst this
          simp [hbm, hm, hme, hps]
        · simp [hbm, hm, hme, hps]


theorem getIndexParamsFull_typed_eval (ctx : BuilderCtx) (idx : IndexDef)
    (fname t : String)
    (hf : idx.field = Option.some fname) (hne : fname.isEmpty = false)
    (ht : idx.type = Option.some t) (hte : t.isEmpty = false)
    (hval : indexValidate ctx.compat ctx.fieldTypes idx = .ok ()) :
    getIndexParamsFull ctx idx =
      .ok (⟨t,
            (match idx.metric with
             | Option.some m =>
               if m.isEmpty then
                 (if isBM25FunctionOutputField ctx.functions fname ∧
                     t = "SPARSE_INVERTED_INDEX" then Option.some "BM25" else Option.none)
               else Option.some m
             | Option.none =>
               (if isBM25FunctionOutputField ctx.functions fname ∧
                   t = "SPARSE_INVERTED_INDEX" then Option.some "BM25" else Option.none)),
            (let params0 : PyDict :=
              match idx.params with
              | Option.some ps => if ps.isEmpty then [] else ps
              | Option.none => []
             let params1 : PyDict :=
              if t = "SPARSE_INVERTED_INDEX" then
                sparseDefaultParams (isBM25FunctionOutputField ctx.functions fname) params0
              else params0
             if params1.isEmpty then Option.none else Option.some params1)⟩,
           { idx with params :=
              (match idx.params with
               | Option.some ps =>
                 if ps.isEmpty then Option.some ps
                 else Option.some
                   (if t = "SPARSE_INVERTED_INDEX" then
                     sparseDefaultParams (isBM25FunctionOutputField ctx.functions fname) ps
                    else ps)
               | Option.none => Option.none) }) := by
  obtain ⟨f0, t0, m0, p0⟩ := idx
  replace hf : f0 = Option.some fname := hf
  replace ht : t0 = Option.some t := ht
  subst hf
  subst ht
  unfold getIndexParamsFull
  rw [hval]
  simp only [hne, hte, Bool.false_eq_true, if_false, if_true, Bool.not_false]
  cases m0 with
  | none =>
    cases p0 with
    | none => simp
    | some ps =>
      by_cases hps : ps.isEmpty = true
      · have : ps = [] := List.isEmpty_iff.mp hps
        subst this
        simp
      · simp only [Bool.not_eq_true] at hps
        simp only [hps] <;> simp
  | some m =>
    by_cases hme : m.isEmpty = true
    · cases p0 with
      | none => simp [hme]
      | some ps =>
        by_cases hps : ps.isEmpty = true
        · have : ps = [] := List.isEmpty_iff.mp hps
          subst this
          simp [hme]
        · simp only [Bool.not_eq_true] at hps
          simp only [hme, hps] <;> simp [hme]
    · simp only [Bool.not_eq_true] at hme
      cases p0 with
      | none => simp [hme]
      | some ps =>
        by_cases hps : ps.isEmpty = true
        · have : ps = [] := List.isEmpty_iff.mp hps
          subst this
          simp [hme]
        · simp only [Bool.not_eq_true] at hps
          simp only [hme, hps] <;> simp [hme]

/- ----------------------------------------------------------------------
   Claim theorems
   ---------------------------------------------------------------------- -/

/-- C5 (counterexample): the spec's example is wrong on the code —
`parse_version("2.6.0rc1")` yields `(2, 6)`, not `(2, 6, 0)`: the component
`"0rc1"` is not all digits, so parsing stops before it. -/
theorem c5_counterexample :
    parseVersion "2.6.0rc1" = .ok [2, 6] ∧ parseVersion "2.6.0rc1" ≠ .ok [2, 6, 0] := by
  constructor
  · decide
  · decide

/-- C5 (amended): version parsing takes the leading run of
dot/plus/hyphen-separated numeric components and stops at the first
non-numeric component, so `parse_version("2.6.0rc1")` returns `(2, 6)`;
and the at-least / at-most / equality helpers compare the parsed tuples by
standard lexicographic tuple comparison. -/
theorem c5_version_parsing_lexicographic :
    versionTuple "2.6.0rc1" = [2, 6] ∧
    (∀ a b : List Nat, tupleLt a b = true ↔ List.Lex (· < ·) a b) ∧
    (∀ installed s t, parseVersion s = .ok t →
      ((versionAtLeast installed s = .ok true ↔ ¬ List.Lex (· < ·) installed t) ∧
       (versionAtMost installed s = .ok true ↔ ¬ List.Lex (· < ·) t installed) ∧
       (versionMatches installed s = .ok true ↔ installed = t))) := by
  refine ⟨by decide, tupleLt_iff_lex, ?_⟩
  intro installed s t h
  refine ⟨?_, ?_, ?_⟩
  · rw [versionAtLeast, h]
    simp [Except.map, ← tupleLt_iff_lex]
  · rw [versionAtMost, h]
    simp [Except.map, ← tupleLt_iff_lex]
  · rw [versionMatches, h]
    simp [Except.map]

/-- C5 witness: the helpers evaluated at a concrete installed version and
version string. -/
theorem c5_version_parsing_lexicographic_witness :
    versionAtLeast [2, 6, 2] "2.5.1" = .ok true ↔ ¬ List.Lex (· < ·) [2, 6, 2] [2, 5, 1] :=
  ((c5_version_parsing_lexicographic.2.2) [2, 6, 2] "2.5.1" [2, 5, 1] (by decide)).1

theorem funcTypeOf_eq_BM25_iff (f : FuncDef) :
    funcTypeOf f = "BM25" ↔
      (f.type = Option.some "BM25" ∨
        ((f.type = Option.none ∨ f.type = Option.some "") ∧
          pyToUpper (f.function_type.getD "") = "BM25")) := by
  unfold funcTypeOf
  cases ht : f.type with
  | none => simp
  | some t =>
    by_cases h : t.isEmpty
    · have he : t = "" := (String.isEmpty_iff t).mp h
      subst he
      simp [h]
    · simp only [h, Bool.not_false, if_true]
      constructor
      · intro hh; exact Or.inl (by rw [hh])
      · intro hh
        rcases hh with hh | ⟨hh, _⟩
        · exact Option.some.inj hh
        · rcases hh with hh | hh
          · exact absurd hh (Option.noConfusion)
          · exact absurd (Option.some.inj hh) (fun he => h (by rw [he]; rfl))

theorem outputs_any_iff (l : List PyVal) (name : String) :
    (l.any (fun v => match v with | .str s => s = name | _ => false) = true) ↔
      PyVal.str name ∈ l := by
  rw [List.any_eq_true]
  constructor
  · rintro ⟨v, hv, hp⟩
    cases v <;> simp only [decide_eq_true_eq] at hp
    case str s => subst hp; exact hv
    all_goals exact absurd hp (by simp)
  · intro h
    exact ⟨PyVal.str name, h, by simp⟩

/-- C8 (counterexample): the claim's case-insensitivity fails — a function
with `type: "bm25"` (lower case) is not recognized as BM25 while
`type: "BM25"` is, because `.upper()` binds only to the `function_type`
fallback in `func_def.get("type") or func_def.get("function_type", "").upper()`. -/
theorem c8_counterexample :
    isBM25FunctionOutputField
        [{ type := Option.some "bm25", output_field := Option.some (.str "s") }] "s" = false ∧
    isBM25FunctionOutputField
        [{ type := Option.some "BM25", output_field := Option.some (.str "s") }] "s" = true :=
  ⟨rfl, rfl⟩

/-- C8 (amended): `is_bm25_function_output_field(name)` returns true iff some
declared function lists `name` among its output fields (read from the first
truthy key among `output_field`, `output_field_names`, `output_fields`) and
its type resolves to `BM25` — where a truthy `type` value is compared
verbatim (so it must be written exactly `BM25`), and only the
`function_type` fallback is uppercased (so that spelling is
case-insensitive). -/
theorem c8_bm25_output_field_characterization (functions : List FuncDef) (name : String) :
    isBM25FunctionOutputField functions name = true ↔ isBM25OutputSpec functions name := by
  unfold isBM25FunctionOutputField isBM25OutputSpec
  rw [List.any_eq_true]
  constructor
  · rintro ⟨f, hf, hp⟩
    rw [Bool.and_eq_true, decide_eq_true_eq] at hp
    exact ⟨f, hf, (funcTypeOf_eq_BM25_iff f).mp hp.1, (outputs_any_iff _ name).mp hp.2⟩
  · rintro ⟨f, hf, hty, hout⟩
    refine ⟨f, hf, ?_⟩
    rw [Bool.and_eq_true, decide_eq_true_eq]
    exact ⟨(funcTypeOf_eq_BM25_iff f).mpr hty, (outputs_any_iff _ name).mpr hout⟩

/-- C2: autoindex flag resolution over the six candidate slots (three
top-level keys plus the same trio under `settings`): with no candidate set
the flag resolves to false; with exactly one candidate set to a boolean it
resolves to that boolean; with two or more candidates set (any values) it
raises an error whose message starts with "Multiple autoindex settings
found"; with the single set candidate non-boolean it raises an error citing
the value's type name and the offending key. -/
theorem c2_autoindex_flag_resolution (schema : PyDict) :
    (autoindexFound schema = [] → resolveAutoindexFlag schema = .ok false) ∧
    (∀ key b, autoindexFound schema = [(key, PyVal.bool b)] →
      resolveAutoindexFlag schema = .ok b) ∧
    (2 ≤ (autoindexFound schema).length →
      ∃ rest, resolveAutoindexFlag schema =
        .error ("Multiple autoindex settings found: " ++ rest)) ∧
    (∀ key v, autoindexFound schema = [(key, v)] → (∀ b, v ≠ PyVal.bool b) →
      ∃ pre post, resolveAutoindexFlag schema =
        .error (pre ++ v.typeName ++ ") for key '" ++ key ++ post)) := by
  refine ⟨?_, ?_, ?_, ?_⟩
  · intro h
    simp [resolveAutoindexFlag, h]
  · intro key b h
    simp [resolveAutoindexFlag, h]
  · intro h
    unfold resolveAutoindexFlag
    rw [if_pos (by omega)]
    exact ⟨_, by rw [String.append_assoc]⟩
  · intro key v h hv
    unfold resolveAutoindexFlag
    rw [h]
    simp only [List.length_cons, List.length_nil]
    rw [if_neg (by omega)]
    refine ⟨"Invalid autoindex value '" ++ pyStr v ++ "' (type: ",
      "'. Expected boolean value (true or false)", ?_⟩
    cases v
    case bool b => exact absurd rfl (hv b)
    all_goals simp [String.append_assoc]

/-- C2 witness: resolution evaluated at concrete documents for each case. -/
theorem c2_autoindex_flag_resolution_witness :
    resolveAutoindexFlag [("autoindex", PyVal.bool true)] = .ok true ∧
    resolveAutoindexFlag [] = .ok false :=
  ⟨(c2_autoindex_flag_resolution _).2.1 "autoindex" true rfl,
   (c2_autoindex_flag_resolution _).1 rfl⟩

/-- C6 (counterexample): a `float16_vector` field with no `dim` passes
`FieldValidator.validate` (the type-specific dispatch only reaches the
dim checks for `float_vector` and `binary_vector`), while the same
`float_vector` field is rejected — so the claim's dim requirement does not
hold for the float16/bfloat16/int8 vector types. -/
theorem c6_counterexample :
    fieldValidate compatAll
        { name := Option.some "v", type := Option.some "float16_vector" } = .ok () ∧
    fieldValidate compatAll
        { name := Option.some "v", type := Option.some "float_vector" } =
      .error "Vector field 'v' missing required 'dim' parameter" :=
  ⟨rfl, rfl⟩

/-- C6 (amended): for `float_vector` and `binary_vector` fields,
`FieldValidator.validate` requires `dim` (error when the key is absent),
propagates the positive-integer error for a non-positive or non-integer
`dim`, and otherwise accepts exactly the dims within 1-32768
(float_vector) resp. 1-262144 (binary_vector); the float16/bfloat16/int8
vector types skip the dim checks entirely. -/
theorem c6_vector_dim_validation (c : Compat) (f : FieldDef) (name t : String)
    (hn : f.name = Option.some name) (ht : f.type = Option.some t)
    (hvec : t = "float_vector" ∨ t = "binary_vector")
    (h1 : validateStringNotEmpty name "name" = .ok ())
    (h2 : validateFieldNameFormat name = .ok ())
    (h3 : validateFieldType c t name = .ok ())
    (hnul : f.nullable = Option.none) (hem : f.enable_match = Option.none) :
    (f.dim = Option.none →
      fieldValidate c f =
        .error ("Vector field '" ++ name ++ "' missing required 'dim' parameter")) ∧
    (∀ v e, f.dim = Option.some v →
      validatePositiveInteger v (name ++ ".dim") = .error e →
      fieldValidate c f = .error e) ∧
    (∀ n : Int, f.dim = Option.some (.int n) → 0 < n →
      (fieldValidate c f = .ok () ↔
        n ≤ (if t = "float_vector" then 32768 else 262144))) ∧
    (∀ n : Int, f.dim = Option.some (.int n) → 0 < n →
      ¬ n ≤ (if t = "float_vector" then 32768 else 262144) →
      ∃ e, fieldValidate c f = .error e) ∧
    (∀ t', (t' = "float16_vector" ∨ t' = "bfloat16_vector" ∨ t' = "int8_vector") →
      validateTypeSpecificParams c f t' name = .ok ()) := by
  have hbase : fieldValidate c f =
      (validateTypeSpecificParams c f t name >>= fun _ => Except.ok ()) := by
    simp only [fieldValidate, hn, ht, h1, h2, h3, exceptBindOk, hnul, hem]
  have htv : validateTypeSpecificParams c f t name = validateVectorParams f t name := by
    rcases hvec with h | h <;> subst h <;> simp [validateTypeSpecificParams]
  have hiff : ∀ n : Int, f.dim = Option.some (.int n) → 0 < n →
      (fieldValidate c f = .ok () ↔
        n ≤ (if t = "float_vector" then 32768 else 262144)) := by
    intro n hd hpos
    rw [hbase, htv]
    have hpi : validatePositiveInteger (.int n) (name ++ ".dim") = .ok () := by
      simp [validatePositiveInteger, pyIntVal]
      omega
    simp only [validateVectorParams, hd, hpi, exceptBindOk]
    rcases hvec with h | h <;> subst h
    · simp only [validateVectorDim, vectorDimRange, pyIntVal]
      constructor
      · intro hh
        by_cases hb : (1 : Int) ≤ n ∧ n ≤ 32768
        · simpa using hb.2
        · simp [hb] at hh
      · intro hh
        have hb : (1 : Int) ≤ n ∧ n ≤ 32768 := by
          constructor
          · omega
          · simpa using hh
        simp [hb]
    · simp only [validateVectorDim, vectorDimRange, pyIntVal]
      constructor
      · intro hh
        by_cases hb : (1 : Int) ≤ n ∧ n ≤ 262144
        · simpa using hb.2
        · simp [hb] at hh
      · intro hh
        have hb : (1 : Int) ≤ n ∧ n ≤ 262144 := by
          refine ⟨by omega, ?_⟩
          simpa using hh
        simp [hb]
  refine ⟨?_, ?_, hiff, ?_, ?_⟩
  · intro hd
    rw [hbase, htv]
    simp [validateVectorParams, hd]
  · intro v e hd he
    rw [hbase, htv]
    simp [validateVectorParams, hd, he]
  · intro n hd hpos hout
    cases hres : fieldValidate c f with
    | ok u =>
      cases u
      exact absurd ((hiff n hd hpos).mp hres) hout
    | error e => exact ⟨e, rfl⟩
  · intro t' ht'
    rcases ht' with h | h | h <;> subst h <;> simp [validateTypeSpecificParams]

/-- C6 witness: the dim bounds evaluated at a concrete float_vector field. -/
theorem c6_vector_dim_validation_witness :
    fieldValidate compatAll
        { name := Option.some "v", type := Option.some "float_vector",
          dim := Option.some (.int 128) } = .ok () ↔ (128 : Int) ≤ 32768 := by
  have h := (c6_vector_dim_validation compatAll
    { name := Option.some "v", type := Option.some "float_vector",
      dim := Option.some (.int 128) } "v" "float_vector"
    rfl rfl (Or.inl rfl) rfl rfl rfl rfl rfl).2.2.1 128 rfl (by omega)
  simpa using h

/-- C7: `IndexValidator.validate` runs the required-parameter check even when
the index definition has no `params` mapping: whenever the (uppercased)
index type passes the type check and has a non-empty required-parameter set,
validation stops with the single error listing all missing parameter names
in sorted order; the required sets are `nlist` for IVF_FLAT/IVF_SQ8/IVF_PQ
and `M`/`efConstruction` for HNSW, and an IVF_FLAT index with no params
raises exactly "missing required parameters: ['nlist']". -/
theorem c7_required_index_params (c : Compat) (ft : FieldTypes) (idx : IndexDef)
    (fname ftype t : String)
    (hf : idx.field = Option.some fname)
    (hl : ft.lookup fname = Option.some ftype)
    (ht : idx.type = Option.some t) (hne : t.isEmpty = false)
    (htyOk : validateIndexType c (pyToUpper t) ftype fname = .ok ())
    (hm : idx.metric = Option.none)
    (hp : idx.params = Option.none)
    (hreq : requiredParams (pyToUpper t) ≠ []) :
    indexValidate c ft idx =
      .error ("Index '" ++ pyToUpper t ++ "' for field '" ++ fname ++
        "' missing required parameters: " ++
        pyStrList (sortStrings (requiredParams (pyToUpper t)))) ∧
    requiredParams "IVF_FLAT" = ["nlist"] ∧
    requiredParams "IVF_SQ8" = ["nlist"] ∧
    requiredParams "IVF_PQ" = ["nlist"] ∧
    requiredParams "HNSW" = ["M", "efConstruction"] ∧
    indexValidate compatAll [("v", "float_vector")]
        { field := Option.some "v", type := Option.some "IVF_FLAT",
          metric := Option.some "L2" } =
      .error "Index 'IVF_FLAT' for field 'v' missing required parameters: ['nlist']" := by
  refine ⟨?_, rfl, rfl, rfl, rfl, by decide⟩
  have hmiss : (requiredParams (pyToUpper t)).filter (fun p => !dmem ([] : PyDict) p) =
      requiredParams (pyToUpper t) := by
    simp [dmem, List.lookup]
  have hnonempty : (requiredParams (pyToUpper t)).isEmpty = false := by
    cases hq : requiredParams (pyToUpper t) with
    | nil => exact absurd hq hreq
    | cons a l => rfl
  simp only [indexValidate, hf, hl, ht, hne, Option.map_some', Option.getD_some,
    Bool.not_false, if_true, htyOk, exceptBindOk, hm, hp, Option.getD_none]
  simp only [validateIndexParamsCore, hmiss, hnonempty, Bool.not_false, if_true]

/-- C7 witness: an HNSW index with no params evaluated concretely. -/
theorem c7_required_index_params_witness :
    indexValidate compatAll [("v", "float_vector")]
        { field := Option.some "v", type := Option.some "HNSW" } =
      .error ("Index '" ++ pyToUpper "HNSW" ++ "' for field '" ++ "v" ++
        "' missing required parameters: " ++
        pyStrList (sortStrings (requiredParams (pyToUpper "HNSW")))) :=
  (c7_required_index_params compatAll [("v", "float_vector")]
    { field := Option.some "v", type := Option.some "HNSW" }
    "v" "float_vector" "HNSW" rfl rfl rfl rfl (by decide) rfl rfl (by decide)).1

/-- C9: the `validate_schema` entry point always returns a list of strings
(it is total over every outcome of the underlying steps); when a step
raises, the exception's message becomes the single error string, placed
before the warnings collected so far; when nothing raises, the result is
exactly the warnings; and in every case the result splits into an error
part of length at most one followed by the warning part. -/
theorem c9_validate_schema_entry_total (r : ValidateRun) :
    (∀ e, r.loaderSteps = .error e → validateSchemaEntry r = [e]) ∧
    (∀ e, r.loaderSteps = .ok () → r.builderInit = .error e →
      validateSchemaEntry r = [e]) ∧
    (∀ e, r.loaderSteps = .ok () → r.builderInit = .ok () →
      r.buildResult = .error e → validateSchemaEntry r = [e]) ∧
    (∀ e, r.loaderSteps = .ok () → r.builderInit = .ok () → r.buildResult = .ok () →
      r.functionChecks = .error e → validateSchemaEntry r = [e]) ∧
    (∀ e, r.loaderSteps = .ok () → r.builderInit = .ok () → r.buildResult = .ok () →
      r.functionChecks = .ok () → r.indexWarnings = .error e →
      validateSchemaEntry r = [e]) ∧
    (∀ e ws, r.loaderSteps = .ok () → r.builderInit = .ok () → r.buildResult = .ok () →
      r.functionChecks = .ok () → r.indexWarnings = .ok ws →
      r.funcIndexMessages = .error e → validateSchemaEntry r = [e] ++ ws) ∧
    (∀ ws ms, r.loaderSteps = .ok () → r.builderInit = .ok () → r.buildResult = .ok () →
      r.functionChecks = .ok () → r.indexWarnings = .ok ws →
      r.funcIndexMessages = .ok ms → validateSchemaEntry r = [] ++ (ws ++ ms)) ∧
    (∃ errs warns, validateSchemaEntry r = errs ++ warns ∧ errs.length ≤ 1) := by
  refine ⟨?_, ?_, ?_, ?_, ?_, ?_, ?_, ?_⟩
  · intro e h; simp [validateSchemaEntry, h]
  · intro e h1 h2; simp [validateSchemaEntry, h1, h2]
  · intro e h1 h2 h3; simp [validateSchemaEntry, h1, h2, h3]
  · intro e h1 h2 h3 h4; simp [validateSchemaEntry, h1, h2, h3, h4]
  · intro e h1 h2 h3 h4 h5; simp [validateSchemaEntry, h1, h2, h3, h4, h5]
  · intro e ws h1 h2 h3 h4 h5 h6; simp [validateSchemaEntry, h1, h2, h3, h4, h5, h6]
  · intro ws ms h1 h2 h3 h4 h5 h6; simp [validateSchemaEntry, h1, h2, h3, h4, h5, h6]
  · unfold validateSchemaEntry
    cases r.loaderSteps with
    | error e => exact ⟨[e], [], by simp, by simp⟩
    | ok u =>
      cases u
      cases r.builderInit with
      | error e => exact ⟨[e], [], by simp, by simp⟩
      | ok u =>
        cases u
        cases r.buildResult with
        | error e => exact ⟨[e], [], by simp, by simp⟩
        | ok u =>
          cases u
          cases r.functionChecks with
          | error e => exact ⟨[e], [], by simp, by simp⟩
          | ok u =>
            cases u
            cases r.indexWarnings with
            | error e => exact ⟨[e], [], by simp, by simp⟩
            | ok ws =>
              cases r.funcIndexMessages with
              | error e => exact ⟨[e], ws, rfl, by simp⟩
              | ok ms => exact ⟨[], ws ++ ms, rfl, by simp⟩

/-- C9 witness: a run whose build step raises lands the message as the
single returned error. -/
theorem c9_validate_schema_entry_total_witness :
    validateSchemaEntry
      ⟨.ok (), .ok (), .error "Schema must have exactly one primary field", .ok (),
        .ok [], .ok []⟩ = ["Schema must have exactly one primary field"] :=
  (c9_validate_schema_entry_total _).2.2.1 _ rfl rfl rfl

theorem exceptBind_eq_ok {α β : Type} {a : Except String α} {f : α → Except String β}
    {y : β} : (a >>= f) = .ok y ↔ ∃ x, a = .ok x ∧ f x = .ok y := by
  cases a <;> simp

theorem vsne_ok_isEmpty {name fn : String}
    (h : validateStringNotEmpty name fn = .ok ()) : name.isEmpty = false := by
  unfold validateStringNotEmpty at h
  by_cases hb : (name.isEmpty || name.toList.all Char.isWhitespace) = true
  · rw [if_pos hb] at h
    exact absurd h (by simp)
  · simp only [Bool.or_eq_true, not_or, Bool.not_eq_true] at hb
    exact hb.1

theorem typeMapping_empty (c : Compat) : typeMapping c "" = Option.none := rfl

theorem typeMapping_isSome_ne_empty {c : Compat} {t : String}
    (h : (typeMapping c t).isSome = true) : t.isEmpty = false := by
  cases hie : t.isEmpty with
  | false => rfl
  | true =>
    have he : t = "" := (String.isEmpty_iff t).mp hie
    rw [he, typeMapping_empty] at h
    exact absurd h (by simp)

theorem buildTypeParams_ok_of_validate {c : Compat} {f : FieldDef} {t name : String}
    (h : validateTypeSpecificParams c f t name = .ok ()) :
    ∃ ps, buildTypeParams c f t name = .ok ps := by
  by_cases h1 : t = "varchar"
  · subst h1
    simp only [buildTypeParams, if_true]
    exact ⟨_, rfl⟩
  by_cases h2 : t = "float_vector" ∨ t = "float16_vector" ∨ t = "bfloat16_vector" ∨
      t = "int8_vector" ∨ t = "binary_vector" ∨ t = "sparse_float_vector"
  · rw [buildTypeParams, if_neg h1, if_pos h2]
    exact ⟨_, rfl⟩
  by_cases h3 : t = "array"
  · subst h3
    simp only [validateTypeSpecificParams, String.reduceEq, if_false, or_self,
      if_true] at h
    rw [buildTypeParams, if_neg h1, if_neg h2, if_pos rfl]
    cases he : f.element_type with
    | none =>
      simp only [he]
      exact ⟨_, rfl⟩
    | some e =>
      rw [validateArrayParams, he] at h
      cases hc : f.max_capacity with
      | none =>
        rw [hc] at h
        exact absurd h (by simp)
      | some mc =>
        rw [hc] at h
        by_cases hm : (typeMapping c e).isSome = true
        · by_cases hee : e.isEmpty = true
          · simp only [he, hee, if_true]
            exact ⟨_, rfl⟩
          · simp only [he, hee, if_false, Bool.false_eq_true]
            cases hmm : typeMapping c e with
            | none =>
              rw [hmm] at hm
              exact absurd hm (by simp)
            | some m => exact ⟨_, rfl⟩
        · simp only [Bool.not_eq_true] at hm
          simp [hm] at h
  · rw [buildTypeParams, if_neg h1, if_neg h2, if_neg h3]
    exact ⟨_, rfl⟩

theorem dmem_kwargsHead_primary (c : Compat) (f : FieldDef) (name ts : String) :
    dmem (kwargsHead c f name ts) "is_primary" = isPrimaryFlagged f := by
  unfold kwargsHead isPrimaryFlagged
  by_cases hp : (f.is_primary.getD (.bool false)).truthy = true
  · simp [hp, dmem, pd_lookup_append, List.lookup]
  · simp only [Bool.not_eq_true] at hp
    simp [hp, dmem, List.lookup]

theorem dmem_kwargsDirect_primary (c : Compat) (f : FieldDef) (ts : String)
    (kwargs1 params0 : PyDict) :
    dmem (kwargsDirect c f ts kwargs1 params0).1 "is_primary" =
      dmem kwargs1 "is_primary" := by
  unfold kwargsDirect
  cases het : f.element_type <;>
    simp only [het] <;>
    split_ifs <;>
    simp_all [dmem, lookup_append_cons_ne]

theorem dmem_kwargsTail_primary (f : FieldDef) (kwargs2 params1 : PyDict) :
    dmem (kwargsTail f kwargs2 params1) "is_primary" = dmem kwargs2 "is_primary" := by
  unfold kwargsTail
  cases f.enable_analyzer <;> cases f.enable_match <;>
    cases f.multi_analyzer_params <;> cases f.nullable <;>
    simp [apply_ite (fun l : PyDict => dmem l "is_primary"), dmem_append_cons_ne]

theorem buildFieldKwargs_primary {c : Compat} {f : FieldDef} {name ts : String}
    {kw : PyDict} (h : buildFieldKwargs c f name ts = .ok kw) :
    dmem kw "is_primary" = isPrimaryFlagged f := by
  unfold buildFieldKwargs at h
  cases hbtp : buildTypeParams c f ts name with
  | error e =>
    rw [hbtp] at h
    exact absurd h (by simp)
  | ok ps =>
    rw [hbtp] at h
    simp only [Except.ok.injEq] at h
    subst h
    rw [dmem_kwargsTail_primary, dmem_kwargsDirect_primary, dmem_kwargsHead_primary]

theorem buildField_primary {c : Compat} {f : FieldDef} {kw : PyDict}
    (h : buildField c f = .ok kw) : dmem kw "is_primary" = isPrimaryFlagged f := by
  unfold buildField at h
  repeat' split at h
  all_goals first
    | exact buildFieldKwargs_primary h
    | exact absurd h (by simp)

theorem buildField_ok_of_validate {c : Compat} {f : FieldDef}
    (h : fieldValidate c f = .ok ()) : ∃ kw, buildField c f = .ok kw := by
  unfold fieldValidate at h
  cases hn : f.name with
  | none =>
    rw [hn] at h
    exact absurd h (by simp)
  | some name =>
    rw [hn] at h
    cases ht : f.type with
    | none =>
      rw [ht] at h
      exact absurd h (by simp)
    | some t =>
      rw [ht] at h
      obtain ⟨u1, h1, h⟩ := exceptBind_eq_ok.mp h
      obtain ⟨u2, h2, h⟩ := exceptBind_eq_ok.mp h
      obtain ⟨u3, h3, h⟩ := exceptBind_eq_ok.mp h
      obtain ⟨u4, h4, h⟩ := exceptBind_eq_ok.mp h
      cases u4
      have hne : name.isEmpty = false := vsne_ok_isEmpty h1
      have hmap : (typeMapping c t).isSome = true := by
        cases hm : typeMapping c t with
        | none =>
          unfold validateFieldType at h3
          rw [hm] at h3
          exact absurd h3 (by simp)
        | some m => simp [hm]
      have hte : t.isEmpty = false := typeMapping_isSome_ne_empty hmap
      obtain ⟨ps, hps⟩ := buildTypeParams_ok_of_validate h4
      cases hb : buildField c f with
      | ok kw => exact ⟨kw, rfl⟩
      | error e =>
        exfalso
        unfold buildField buildFieldKwargs at hb
        simp [hn, ht, hne, hte, hmap] at hb
        rw [hps] at hb
        simp at hb

theorem buildFieldsLoop_ok {c : Compat} {fields : List FieldDef}
    (hv : ∀ f ∈ fields, fieldValidate c f = .ok ()) :
    ∃ bfs n, buildFieldsLoop c fields = .ok (bfs, n) ∧
      bfs.length = fields.length ∧
      n = (fields.filter isPrimaryFlagged).length ∧
      (bfs.filter (fun kw => dmem kw "is_primary")).length = n := by
  induction fields with
  | nil => exact ⟨[], 0, rfl, rfl, rfl, rfl⟩
  | cons f rest ih =>
    have hf := hv f (by simp)
    obtain ⟨bfs, n, hloop, hlen, hn, hbn⟩ := ih (fun g hg => hv g (by simp [hg]))
    obtain ⟨kw, hkw⟩ := buildField_ok_of_validate hf
    have hpk : dmem kw "is_primary" = isPrimaryFlagged f := buildField_primary hkw
    refine ⟨kw :: bfs, (if isPrimaryFlagged f then 1 else 0) + n, ?_, by simp [hlen],
      ?_, ?_⟩
    · simp [buildFieldsLoop, hf, hkw, hloop]
    · by_cases hp : isPrimaryFlagged f <;> simp [hp, hn, List.filter_cons] <;> omega
    · by_cases hp : isPrimaryFlagged f <;>
        simp [List.filter_cons, hpk, hp, hbn] <;> omega

/-- C3 (counterexample): with zero primary-flagged fields, `build` raises
"Schema must have exactly one primary field" — a message that does not
state the count found (it contains no "0"), contrary to the claim. -/
theorem c3_counterexample :
    build compatAll { fields := [{ name := Option.some "a", type := Option.some "int64" }] } =
      .error "Schema must have exactly one primary field" ∧
    strContains "Schema must have exactly one primary field" "0" = false :=
  ⟨rfl, rfl⟩

/-- C3 (amended): for a document whose fields each pass per-field validation
(and whose declared indexes validate): with exactly one primary-flagged
field, `build()` succeeds and the descriptor has `len(fields)` fields of
which exactly one is primary; with zero primary-flagged fields it raises
"Schema must have exactly one primary field" (the count is not stated);
with two or more it raises a message stating the exact count found. -/
theorem c3_primary_field_count (c : Compat) (doc : SchemaDoc)
    (hv : ∀ f ∈ doc.fields, fieldValidate c f = .ok ())
    (hi : indexValidateLoop c (fieldTypesOf doc.fields) doc.indexes = .ok ()) :
    ((doc.fields.filter isPrimaryFlagged).length = 1 →
      ∃ d, build c doc = .ok d ∧ d.fields.length = doc.fields.length ∧
        (d.fields.filter (fun kw => dmem kw "is_primary")).length = 1) ∧
    ((doc.fields.filter isPrimaryFlagged).length = 0 →
      build c doc = .error "Schema must have exactly one primary field") ∧
    (2 ≤ (doc.fields.filter isPrimaryFlagged).length →
      build c doc = .error ("Schema has " ++
        toString (doc.fields.filter isPrimaryFlagged).length ++
        " primary fields, must have exactly one")) := by
  obtain ⟨bfs, n, hloop, hlen, hn, hbn⟩ := buildFieldsLoop_ok hv
  refine ⟨?_, ?_, ?_⟩
  · intro hone
    have hn1 : n = 1 := by rw [hn, hone]
    subst hn1
    refine ⟨⟨bfs, doc.description.getD (.str ""),
      match (doc.settings.getD []).lookup "enable_dynamic_field" with
      | Option.some v => v
      | Option.none => .bool false⟩, ?_, by simpa using hlen, by simpa using hbn⟩
    unfold build buildFields
    simp only [hloop]
    norm_num
    rw [hi]
  · intro hzero
    have hn0 : n = 0 := by rw [hn, hzero]
    subst hn0
    unfold build buildFields
    simp only [hloop]
    norm_num
  · intro htwo
    unfold build buildFields
    simp only [hloop]
    rw [if_neg (by omega), if_pos (by omega), hn]

/-- C3 witness: a two-field document with one primary builds to a two-field
descriptor with one primary. -/
theorem c3_primary_field_count_witness :
    ∃ d, build compatAll
        { fields := [{ name := Option.some "id", type := Option.some "int64",
                       is_primary := Option.some (.bool true) },
                     { name := Option.some "v", type := Option.some "float_vector",
                       dim := Option.some (.int 128) }] } = .ok d ∧
      d.fields.length = 2 ∧
      (d.fields.filter (fun kw => dmem kw "is_primary")).length = 1 := by
  obtain ⟨d, hd, hl, hp⟩ :=
    (c3_primary_field_count compatAll
      { fields := [{ name := Option.some "id", type := Option.some "int64",
                     is_primary := Option.some (.bool true) },
                   { name := Option.some "v", type := Option.some "float_vector",
                     dim := Option.some (.int 128) }] }
      (by intro f hf
          simp only [List.mem_cons, List.mem_singleton] at hf
          rcases hf with h | h | h
          · subst h; rfl
          · subst h; rfl
          · exact absurd h (by simp))
      rfl).1 rfl
  exact ⟨d, hd, by simpa using hl, hp⟩


/-- C1: for an index definition whose `field` is the output field of a
declared BM25 function and which has no `type` key (and passes index
validation), `get_index_params` returns `index_type = "SPARSE_INVERTED_INDEX"`,
`metric_type = "BM25"` (a supplied non-empty metric wins instead), and a
params dict in which `inverted_index_algo`, `bm25_k1` and `bm25_b` each hold
the user's value when one was supplied and the defaults `"DAAT_MAXSCORE"`,
`1.2`, `0.75` otherwise, with every user-supplied params entry preserved in
the result. -/
theorem c1_bm25_index_defaults (ctx : BuilderCtx) (idx : IndexDef) (fname : String)
    (hf : idx.field = Option.some fname) (hne : fname.isEmpty = false)
    (ht : idx.type = Option.none)
    (hbm : isBM25FunctionOutputField ctx.functions fname = true)
    (hval : indexValidate ctx.compat ctx.fieldTypes idx = .ok ()) :
    ∃ ps : PyDict,
      getIndexParams ctx idx =
        .ok ⟨"SPARSE_INVERTED_INDEX",
             Option.some (match idx.metric with
               | Option.some m => if m.isEmpty then "BM25" else m
               | Option.none => "BM25"),
             Option.some ps⟩ ∧
      ps.lookup "inverted_index_algo" =
        Option.some (((idx.params.getD []).lookup "inverted_index_algo").getD
          (.str "DAAT_MAXSCORE")) ∧
      ps.lookup "bm25_k1" =
        Option.some (((idx.params.getD []).lookup "bm25_k1").getD (.float 1.2)) ∧
      ps.lookup "bm25_b" =
        Option.some (((idx.params.getD []).lookup "bm25_b").getD (.float 0.75)) ∧
      (∀ k v, (idx.params.getD []).lookup k = Option.some v →
        ps.lookup k = Option.some v) := by
  refine ⟨sparseDefaultParams true (match idx.params with
      | Option.some ps => ps
      | Option.none => []), ?_, ?_, ?_, ?_, ?_⟩
  · rw [getIndexParams,
      getIndexParamsFull_bm25_eval ctx idx fname hf hne (Or.inl ht) hbm hval]
    cases idx.metric <;> simp [Except.map, apply_ite]
  · cases hp : idx.params <;> simp only [hp, Option.getD_some, Option.getD_none] <;>
      rw [sdp_lookup_algo]
  · cases hp : idx.params <;> simp only [hp, Option.getD_some, Option.getD_none] <;>
      rw [sdp_lookup_k1]
  · cases hp : idx.params <;> simp only [hp, Option.getD_some, Option.getD_none] <;>
      rw [sdp_lookup_b25]
  · intro k v hkv
    cases hp : idx.params with
    | none => simp [hp] at hkv
    | some ps =>
      rw [hp] at hkv
      simp only [hp, Option.getD_some] at hkv ⊢
      exact sdp_preserves true ps k v hkv

/-- Witness for C1 at a concrete input: one BM25 function with output field
`s`, index definition `\x7b"field": "s"\x7d`. -/
theorem c1_bm25_index_defaults_witness :
    ∃ ps : PyDict,
      getIndexParams
          ⟨compatAll, [("s", "sparse_float_vector")],
           [{ type := Option.some "BM25", output_field := Option.some (.str "s") }],
           false⟩
          { field := Option.some "s" } =
        .ok ⟨"SPARSE_INVERTED_INDEX", Option.some "BM25", Option.some ps⟩ ∧
      ps.lookup "inverted_index_algo" = Option.some (.str "DAAT_MAXSCORE") ∧
      ps.lookup "bm25_k1" = Option.some (.float 1.2) ∧
      ps.lookup "bm25_b" = Option.some (.float 0.75) ∧
      (∀ k v, (([] : PyDict).lookup k = Option.some v) →
        ps.lookup k = Option.some v) :=
  c1_bm25_index_defaults
    ⟨compatAll, [("s", "sparse_float_vector")],
     [{ type := Option.some "BM25", output_field := Option.some (.str "s") }], false⟩
    { field := Option.some "s" } "s" rfl rfl rfl rfl (by decide)



/-- C10 counterexample: `index_def.get("params") or` a fresh dict replaces a
supplied-but-empty params dict, so for the input
`\x7b"field": "s", "params": \x7b\x7d\x7d` (field `s` a BM25 function output
field) the defaults are NOT inserted into the caller's params dict: after the
call the caller's dict is still empty while the returned params carry the
three defaults. -/
theorem c10_counterexample :
    ∃ p d2,
      getIndexParamsFull
          ⟨compatAll, [("s", "sparse_float_vector")],
           [{ type := Option.some "BM25", output_field := Option.some (.str "s") }],
           false⟩
          { field := Option.some "s", params := Option.some [] } = .ok (p, d2) ∧
      d2.params = Option.some [] ∧
      p.params = Option.some [("inverted_index_algo", .str "DAAT_MAXSCORE"),
        ("bm25_k1", .float 1.2), ("bm25_b", .float 0.75)] ∧
      d2.params ≠ p.params := by
  refine ⟨_, _, rfl, rfl, rfl, by simp⟩

/-- C10 (amended): when the index definition lacks a `type` key and the type
is auto-resolved, `get_index_params` writes the resolved type back into the
caller's index_def (`"SPARSE_INVERTED_INDEX"` for BM25 output fields, with
`metric` defaulted to `"BM25"` when absent; `"AUTOINDEX"` under autoindex,
which touches neither metric nor params), and for the BM25 case it inserts
the default params into the caller's params dict only when that dict was
supplied non-empty — a supplied empty dict is replaced by a fresh dict and
left untouched, as is an absent one. -/
theorem c10_index_def_mutation (ctx : BuilderCtx) (idx : IndexDef) (fname : String)
    (p : IndexParams) (d2 : IndexDef)
    (hf : idx.field = Option.some fname) (hne : fname.isEmpty = false)
    (ht : idx.type = Option.none)
    (h : getIndexParamsFull ctx idx = .ok (p, d2)) :
    (isBM25FunctionOutputField ctx.functions fname = true →
      d2.type = Option.some "SPARSE_INVERTED_INDEX" ∧
      (idx.metric = Option.none → d2.metric = Option.some "BM25") ∧
      (∀ m, idx.metric = Option.some m → d2.metric = Option.some m) ∧
      (∀ ps, idx.params = Option.some ps → ps.isEmpty = false →
        d2.params = Option.some (sparseDefaultParams true ps) ∧
        d2.params = p.params)) ∧
    (isBM25FunctionOutputField ctx.functions fname = false →
      d2.type = Option.some "AUTOINDEX" ∧ d2.metric = idx.metric ∧
      d2.params = idx.params ∧ ctx.autoindex = true) ∧
    ((idx.params = Option.none ∨ idx.params = Option.some ([] : PyDict)) →
      d2.params = idx.params) := by
  have hval := getIndexParamsFull_ok_validate h
  by_cases hbm : isBM25FunctionOutputField ctx.functions fname = true
  · rw [getIndexParamsFull_bm25_eval ctx idx fname hf hne (Or.inl ht) hbm hval] at h
    have hx := Except.ok.inj h
    rw [Prod.mk.injEq] at hx
    obtain ⟨hp, hd⟩ := hx
    subst hp
    subst hd
    refine ⟨fun _ => ⟨rfl, ?_, ?_, ?_⟩, fun hbf => absurd hbm (by simp [hbf]), ?_⟩
    · intro hm
      simp [hm]
    · intro m hm
      simp [hm]
    · intro ps hps hpse
      constructor
      · simp [hps, hpse]
      · simp [hps, hpse]
    · intro hor
      rcases hor with h0 | h0 <;> simp [h0]
  · simp only [Bool.not_eq_true] at hbm
    by_cases hauto : ctx.autoindex = true
    · rw [getIndexParamsFull_autoindex_eval ctx idx fname hf hne (Or.inl ht) hbm hauto
        hval] at h
      have hx := Except.ok.inj h
      rw [Prod.mk.injEq] at hx
      obtain ⟨hp, hd⟩ := hx
      subst hp
      subst hd
      exact ⟨fun hbt => absurd hbt (by simp [hbm]), fun _ => ⟨rfl, rfl, rfl, hauto⟩,
        fun _ => rfl⟩
    · exfalso
      simp only [Bool.not_eq_true] at hauto
      unfold getIndexParamsFull at h
      rw [hval] at h
      simp [hf, hne, ht, hbm, hauto] at h

/-- Witness for C10 (amended) at a concrete input: one BM25 function with
output field `s`, index definition
`\x7b"field": "s", "params": \x7b"x": 1\x7d\x7d`. -/
theorem c10_index_def_mutation_witness :
    (isBM25FunctionOutputField
        [{ type := Option.some "BM25", output_field := Option.some (.str "s") }]
        "s" = true →
      (Option.some "SPARSE_INVERTED_INDEX" : Option String) =
          Option.some "SPARSE_INVERTED_INDEX" ∧
      ((Option.none : Option String) = Option.none →
        (Option.some "BM25" : Option String) = Option.some "BM25") ∧
      (∀ m, (Option.none : Option String) = Option.some m →
        (Option.some "BM25" : Option String) = Option.some m) ∧
      (∀ ps, (Option.some [("x", PyVal.int 1)] : Option PyDict) = Option.some ps →
        ps.isEmpty = false →
        (Option.some (sparseDefaultParams true [("x", PyVal.int 1)]) : Option PyDict) =
            Option.some (sparseDefaultParams true ps) ∧
        (Option.some (sparseDefaultParams true [("x", PyVal.int 1)]) : Option PyDict) =
            Option.some (sparseDefaultParams true [("x", PyVal.int 1)]))) ∧
    (isBM25FunctionOutputField
        [{ type := Option.some "BM25", output_field := Option.some (.str "s") }]
        "s" = false →
      (Option.some "SPARSE_INVERTED_INDEX" : Option String) = Option.some "AUTOINDEX" ∧
      (Option.some "BM25" : Option String) = Option.none ∧
      (Option.some (sparseDefaultParams true [("x", PyVal.int 1)]) : Option PyDict) =
          Option.some [("x", PyVal.int 1)] ∧
      false = true) ∧
    ((Option.some [("x", PyVal.int 1)] : Option PyDict) = Option.none ∨
        (Option.some [("x", PyVal.int 1)] : Option PyDict) = Option.some ([] : PyDict) →
      (Option.some (sparseDefaultParams true [("x", PyVal.int 1)]) : Option PyDict) =
        Option.some [("x", PyVal.int 1)]) :=
  c10_index_def_mutation
    ⟨compatAll, [("s", "sparse_float_vector")],
     [{ type := Option.some "BM25", output_field := Option.some (.str "s") }], false⟩
    { field := Option.some "s", params := Option.some [("x", PyVal.int 1)] } "s"
    ⟨"SPARSE_INVERTED_INDEX", Option.some "BM25",
     Option.some (sparseDefaultParams true [("x", PyVal.int 1)])⟩
    ⟨Option.some "s", Option.some "SPARSE_INVERTED_INDEX", Option.some "BM25",
     Option.some (sparseDefaultParams true [("x", PyVal.int 1)])⟩
    rfl rfl rfl rfl


/-- `get_milvus_index_params` registers, entry for entry, exactly the tuple
that `get_index_params` standalone induces. -/
theorem getMilvusIndexParams_eq_mapM (ctx : BuilderCtx) (idxs : List IndexDef) :
    getMilvusIndexParams ctx idxs = idxs.mapM (standaloneCall ctx) := by
  induction idxs with
  | nil => rfl
  | cons d rest ih =>
    rw [List.mapM_cons]
    unfold getMilvusIndexParams
    cases hfull : getIndexParamsFull ctx d with
    | error e => simp [standaloneCall, hfull, Except.bind]
    | ok r =>
      obtain ⟨q, dd⟩ := r
      cases hfld : d.field with
      | none => simp [standaloneCall, hfull, hfld, Except.bind]
      | some f =>
        rw [← ih]
        simp only [standaloneCall, hfull, hfld]
        cases hr : getMilvusIndexParams ctx rest <;>
          simp [hr, Except.bind, Except.pure, pure]

theorem gip_idem_untyped (ctx : BuilderCtx) (t0 m0 : Option String) (p0 : Option PyDict)
    (fname : String) (p p2 : IndexParams) (d2 d3 : IndexDef)
    (hne : fname.isEmpty = false)
    (ht : t0 = Option.none ∨ t0 = Option.some "")
    (h1 : getIndexParamsFull ctx ⟨Option.some fname, t0, m0, p0⟩ = .ok (p, d2))
    (h2 : getIndexParamsFull ctx d2 = .ok (p2, d3)) : p2 = p := by
  have hval1 := getIndexParamsFull_ok_validate h1
  have hval2 := getIndexParamsFull_ok_validate h2
  by_cases hbm : isBM25FunctionOutputField ctx.functions fname = true
  · rw [getIndexParamsFull_bm25_eval ctx ⟨Option.some fname, t0, m0, p0⟩ fname rfl hne
      ht hbm hval1] at h1
    have hx := Except.ok.inj h1
    rw [Prod.mk.injEq] at hx
    obtain ⟨hp, hd⟩ := hx
    subst hp
    subst hd
    rw [getIndexParamsFull_typed_eval ctx _ fname "SPARSE_INVERTED_INDEX" rfl hne rfl
      rfl hval2] at h2
    have hy := Except.ok.inj h2
    rw [Prod.mk.injEq] at hy
    obtain ⟨hq, hd3⟩ := hy
    subst hq
    simp only [IndexParams.mk.injEq, true_and]
    constructor
    · cases m0 with
      | none => simp [hbm]
      | some m =>
        by_cases hme : m.isEmpty = true
        · simp [hme, hbm]
        · simp only [hme]
          simp
    · cases p0 with
      | none => simp [hbm, sdp_isEmpty]
      | some ps =>
        by_cases hps : ps.isEmpty = true
        · have h0 : ps = [] := List.isEmpty_iff.mp hps
          subst h0
          simp [hbm, sdp_isEmpty]
        · have h0 : ps ≠ [] := by simpa using hps
          simp only [hps]
          simp [hbm, h0, sdp_isEmpty, sdp_idem]
  · simp only [Bool.not_eq_true] at hbm
    by_cases hauto : ctx.autoindex = true
    · rw [getIndexParamsFull_autoindex_eval ctx ⟨Option.some fname, t0, m0, p0⟩ fname rfl
        hne ht hbm hauto hval1] at h1
      have hx := Except.ok.inj h1
      rw [Prod.mk.injEq] at hx
      obtain ⟨hp, hd⟩ := hx
      subst hp
      subst hd
      rw [getIndexParamsFull_typed_eval ctx _ fname "AUTOINDEX" rfl hne rfl rfl
        hval2] at h2
      have hy := Except.ok.inj h2
      rw [Prod.mk.injEq] at hy
      obtain ⟨hq, hd3⟩ := hy
      subst hq
      simp only [IndexParams.mk.injEq, true_and]
      constructor
      · cases m0 with
        | none => simp
        | some m =>
          by_cases hme : m.isEmpty = true
          · simp [hme]
          · simp only [hme]
            simp
      · cases p0 with
        | none => simp
        | some ps =>
          by_cases hps : ps.isEmpty = true
          · have h0 : ps = [] := List.isEmpty_iff.mp hps
            subst h0
            simp
          · have h0 : ps ≠ [] := by simpa using hps
            simp only [hps]
            simp [h0]
    · exfalso
      simp only [Bool.not_eq_true] at hauto
      unfold getIndexParamsFull at h1
      rw [hval1] at h1
      rcases ht with ht | ht <;> subst ht <;> simp [hne, hbm, hauto] at h1

theorem gip_idem_typed (ctx : BuilderCtx) (m0 : Option String) (p0 : Option PyDict)
    (fname t : String) (p p2 : IndexParams) (d2 d3 : IndexDef)
    (hne : fname.isEmpty = false) (hte : t.isEmpty = false)
    (h1 : getIndexParamsFull ctx ⟨Option.some fname, Option.some t, m0, p0⟩ =
      .ok (p, d2))
    (h2 : getIndexParamsFull ctx d2 = .ok (p2, d3)) : p2 = p := by
  have hval1 := getIndexParamsFull_ok_validate h1
  have hval2 := getIndexParamsFull_ok_validate h2
  rw [getIndexParamsFull_typed_eval ctx ⟨Option.some fname, Option.some t, m0, p0⟩
    fname t rfl hne rfl hte hval1] at h1
  have hx := Except.ok.inj h1
  rw [Prod.mk.injEq] at hx
  obtain ⟨hp, hd⟩ := hx
  subst hp
  subst hd
  rw [getIndexParamsFull_typed_eval ctx _ fname t rfl hne rfl hte hval2] at h2
  have hy := Except.ok.inj h2
  rw [Prod.mk.injEq] at hy
  obtain ⟨hq, hd3⟩ := hy
  subst hq
  simp only [IndexParams.mk.injEq, true_and]
  by_cases hsp : t = "SPARSE_INVERTED_INDEX"
  · subst hsp
    cases p0 with
    | none => simp [sdp_isEmpty]
    | some ps =>
      by_cases hps : ps.isEmpty = true
      · have h0 : ps = [] := List.isEmpty_iff.mp hps
        subst h0
        simp [sdp_isEmpty]
      · have h0 : ps ≠ [] := by simpa using hps
        simp only [hps]
        simp [h0, sdp_isEmpty, sdp_idem]
  · cases p0 with
    | none => simp [hsp]
    | some ps =>
      by_cases hps : ps.isEmpty = true
      · have h0 : ps = [] := List.isEmpty_iff.mp hps
        subst h0
        simp [hsp]
      · have h0 : ps ≠ [] := by simpa using hps
        simp only [hps]
        simp [hsp, h0]

/-- When a second `get_index_params` call on the (possibly mutated) index
definition succeeds, it returns the same result dict as the first call. -/
theorem gip_second_call_result (ctx : BuilderCtx) (d : IndexDef) (p p2 : IndexParams)
    (d2 d3 : IndexDef)
    (h1 : getIndexParamsFull ctx d = .ok (p, d2))
    (h2 : getIndexParamsFull ctx d2 = .ok (p2, d3)) : p2 = p := by
  have hval1 := getIndexParamsFull_ok_validate h1
  obtain ⟨f0, t0, m0, p0⟩ := d
  obtain ⟨fname, hf, hne⟩ :
      ∃ fname, f0 = Option.some fname ∧ fname.isEmpty = false := by
    cases hfl : f0 with
    | none =>
      exfalso
      unfold getIndexParamsFull at h1
      rw [hval1] at h1
      simp [hfl] at h1
    | some f =>
      by_cases hfe : f.isEmpty = true
      · exfalso
        unfold getIndexParamsFull at h1
        rw [hval1] at h1
        simp [hfl, hfe] at h1
      · exact ⟨f, rfl, by simpa using hfe⟩
  subst hf
  cases t0 with
  | none =>
    exact gip_idem_untyped ctx Option.none m0 p0 fname p p2 d2 d3 hne (Or.inl rfl) h1 h2
  | some t =>
    by_cases hte : t.isEmpty = true
    · have ht0 : t = "" := (String.isEmpty_iff t).mp hte
      subst ht0
      exact gip_idem_untyped ctx (Option.some "") m0 p0 fname p p2 d2 d3 hne
        (Or.inr rfl) h1 h2
    · exact gip_idem_typed ctx m0 p0 fname t p p2 d2 d3 hne (by simpa using hte) h1 h2

/-- C4 counterexample: `get_index_params` is not idempotent on the same index
definition dict.  With a varchar field `v`, autoindex enabled, and the index
definition `\x7b"field": "v"\x7d`, the first call succeeds (resolving and
writing back type AUTOINDEX) but the second call on the now-mutated dict
raises, because AUTOINDEX is not a valid index type for a varchar field. -/
theorem c4_counterexample :
    ∃ p d2 e,
      getIndexParamsFull ⟨compatAll, [("v", "varchar")], [], true⟩
          { field := Option.some "v" } = .ok (p, d2) ∧
      getIndexParamsFull ⟨compatAll, [("v", "varchar")], [], true⟩ d2 = .error e := by
  refine ⟨_, _, _, rfl, rfl⟩

/-- C4 (amended): for every list of index definitions,
`get_milvus_index_params` registers, for each entry, exactly the
`(field_name, index_type, metric_type?, params?)` tuple that
`get_index_params` returns when called standalone on that entry; and when a
second `get_index_params` call on the same (mutated) index definition does
not raise, it returns the same result dict as the first call — but the
second call CAN raise (see the counterexample), so unconditional idempotence
fails. -/
theorem c4_parity_and_conditional_idempotence (ctx : BuilderCtx)
    (idxs : List IndexDef) (d : IndexDef) (p p2 : IndexParams) (d2 d3 : IndexDef)
    (h1 : getIndexParamsFull ctx d = .ok (p, d2))
    (h2 : getIndexParamsFull ctx d2 = .ok (p2, d3)) :
    getMilvusIndexParams ctx idxs = idxs.mapM (standaloneCall ctx) ∧ p2 = p :=
  ⟨getMilvusIndexParams_eq_mapM ctx idxs,
   gip_second_call_result ctx d p p2 d2 d3 h1 h2⟩

/-- Witness for C4 (amended) at a concrete input: a BM25 output field `s`,
where the second call also succeeds and returns the same dict. -/
theorem c4_parity_and_conditional_idempotence_witness :
    getMilvusIndexParams
        ⟨compatAll, [("s", "sparse_float_vector")],
         [{ type := Option.some "BM25", output_field := Option.some (.str "s") }],
         false⟩
        [⟨Option.some "s", Option.none, Option.none, Option.none⟩] =
      List.mapM
        (standaloneCall
          ⟨compatAll, [("s", "sparse_float_vector")],
           [{ type := Option.some "BM25", output_field := Option.some (.str "s") }],
           false⟩)
        [⟨Option.some "s", Option.none, Option.none, Option.none⟩] ∧
    (⟨"SPARSE_INVERTED_INDEX", Option.some "BM25",
      Option.some (sparseDefaultParams true [])⟩ : IndexParams) =
      ⟨"SPARSE_INVERTED_INDEX", Option.some "BM25",
       Option.some (sparseDefaultParams true [])⟩ :=
  c4_parity_and_conditional_idempotence
    ⟨compatAll, [("s", "sparse_float_vector")],
     [{ type := Option.some "BM25", output_field := Option.some (.str "s") }], false⟩
    [⟨Option.some "s", Option.none, Option.none, Option.none⟩]
    ⟨Option.some "s", Option.none, Option.none, Option.none⟩
    ⟨"SPARSE_INVERTED_INDEX", Option.some "BM25",
     Option.some (sparseDefaultParams true [])⟩
    ⟨"SPARSE_INVERTED_INDEX", Option.some "BM25",
     Option.some (sparseDefaultParams true [])⟩
    ⟨Option.some "s", Option.some "SPARSE_INVERTED_INDEX", Option.some "BM25",
     Option.none⟩
    ⟨Option.some "s", Option.some "SPARSE_INVERTED_INDEX", Option.some "BM25",
     Option.none⟩
    rfl rfl

end Pyms
